import Mathlib

/-!
# RenderAPI_D3D11: double-buffered shared-texture handoff

A shallow embedding of `src/Plugin/RenderAPI_D3D11.cpp`.

* C++ pointers and Win32 handles are natural numbers, `0` being `nullptr`.
* The two `TextureBuffer` objects live in an explicit heap, so that
  `std::swap(m_frontBuffer, m_backBuffer)` exchanges addresses, not contents.
* Every call the plugin makes into Direct3D / COM / Win32 / the registered
  callback is appended to a chronological call log (`State.events`).
* The `HRESULT` of every fallible Direct3D call is an explicit input
  (`InitResults`, `CreateResults`): `true` is `SUCCEEDED(hr)`.
* A successful creation call stores a fresh non-null pointer (`nextPtr + 1`).
  A failed creation call leaves its output location as it was.
* `abort()` and a dereference of a null pointer end the run: the operations
  return `Except Stop _`.
* `DEBUG(...)` logging is not modelled.
-/

namespace RenderAPI_D3D11

/-- Pointers and handles; `0` is `nullptr`. -/
abbrev Ptr := Nat

/-- Ways in which a run ends without returning. -/
inductive Stop where
  /-- The code called `abort()`. -/
  | abort
  /-- The code applied `->` to a null (or dangling) pointer. -/
  | nullDeref
  deriving DecidableEq, Repr

/-- Some values of the enumeration `DXGI_FORMAT` (from the DXGI headers); the code uses
`DXGI_FORMAT_R8G8B8A8_UNORM` only. -/
inductive DXGI_FORMAT where
  | UNKNOWN
  | R8G8B8A8_UNORM
  | B8G8R8A8_UNORM
  deriving DecidableEq, Repr

/-- Texture bind flags used by the plugin. -/
inductive BindFlag where
  | D3D11_BIND_RENDER_TARGET
  | D3D11_BIND_SHADER_RESOURCE
  deriving DecidableEq, Repr

/-- Texture misc flags used by the plugin. -/
inductive MiscFlag where
  | D3D11_RESOURCE_MISC_SHARED
  | D3D11_RESOURCE_MISC_SHARED_NTHANDLE
  deriving DecidableEq, Repr

/-- The fields of `D3D11_TEXTURE2D_DESC` that `InitBuffer` fills in
(`Usage = D3D11_USAGE_DEFAULT` is the zero value and is left implicit). -/
structure D3D11_TEXTURE2D_DESC where
  Width : Nat
  Height : Nat
  MipLevels : Nat
  ArraySize : Nat
  Format : DXGI_FORMAT
  SampleCount : Nat
  BindFlags : List BindFlag
  CPUAccessFlags : Nat
  MiscFlags : List MiscFlag
  deriving DecidableEq, Repr

/-- A clear colour, `FLOAT[4]`; the only values the code uses are `0.0f` and `1.0f`,
kept here as the integers `0` and `1`. -/
structure RGBA where
  r : Nat
  g : Nat
  b : Nat
  a : Nat
  deriving DecidableEq, Repr

/-- The constant `blackRGBA = {0.0f, 0.0f, 0.0f, 1.0f}` of `StartRendering`. -/
def blackRGBA : RGBA := ⟨0, 0, 0, 1⟩

/-- The class `TextureBuffer`; every member starts as `nullptr`. -/
structure TextureBuffer where
  m_textureUnity : Ptr := 0
  m_textureShaderInput : Ptr := 0
  m_sharedHandle : Ptr := 0
  m_textureRenderTarget : Ptr := 0
  deriving DecidableEq, Repr

/-- One entry of the call log: a call made by the plugin into Direct3D, COM,
Win32, the C++ runtime or the registered size callback. -/
inductive Event where
  /-- The call `p->Release()` of `IUnknown`. -/
  | Release (p : Ptr)
  /-- The call `CloseHandle(h)`. -/
  | CloseHandle (h : Ptr)
  /-- The statement `delete buffer`. -/
  | Delete (buffer : Ptr)
  /-- The call `ctx->Flush()`. -/
  | Flush (ctx : Ptr)
  /-- The call `ctx->OMSetRenderTargets(1, &rtv, NULL)`. -/
  | OMSetRenderTargets (ctx rtv : Ptr)
  /-- The call `ctx->ClearRenderTargetView(rtv, colour)`. -/
  | ClearRenderTargetView (ctx rtv : Ptr) (colour : RGBA)
  /-- The call `pMultithread->SetMultithreadProtected(TRUE)`. -/
  | SetMultithreadProtected (p : Ptr)
  /-- The call `m_ReportSize(m_reportOpaque, m_width, m_height)`. -/
  | ReportSize (fn arg : Ptr) (width height : Nat)
  deriving DecidableEq, Repr

/-- The members of `RenderAPI_D3D11` (each with its C++ default), followed by
the modelled environment: the heap of `TextureBuffer` objects, the allocation
counter, the descriptor each created texture was created with, and the call log. -/
structure State where
  m_d3deviceUnity : Ptr := 0
  m_d3dctxUnity : Ptr := 0
  m_d3deviceVLC : Ptr := 0
  m_d3dctxVLC : Ptr := 0
  m_frontBuffer : Ptr := 0
  m_backBuffer : Ptr := 0
  m_width : Nat := 0
  m_height : Nat := 0
  m_ReportSize : Ptr := 0
  m_reportOpaque : Ptr := 0
  m_updated : Bool := false
  heap : Ptr → Option TextureBuffer := fun _ => none
  nextPtr : Nat := 0
  textures : Ptr → Option D3D11_TEXTURE2D_DESC := fun _ => none
  events : List Event := []

/-- The `HRESULT`s of the seven fallible calls of one `InitBuffer` run, in source order. -/
structure InitResults where
  CreateTexture2D : Bool
  QueryInterface_IDXGIResource1 : Bool
  CreateSharedHandle : Bool
  QueryInterface_ID3D11Device1 : Bool
  OpenSharedResource1 : Bool
  CreateShaderResourceView : Bool
  CreateRenderTargetView : Bool
  deriving DecidableEq, Repr

/-- Every call of one `InitBuffer` run succeeds. -/
def InitResults.allOk : InitResults := ⟨true, true, true, true, true, true, true⟩

/-- The macro `SCREEN_WIDTH`. -/
def SCREEN_WIDTH : Nat := 100

/-- The macro `SCREEN_HEIGHT`. -/
def SCREEN_HEIGHT : Nat := 100

/-- The statement `RenderAPI_D3D11::ReleaseBuffer(buffer)`: four guarded releases. -/
def ReleaseBuffer (buffer : Ptr) (s : State) : Except Stop State :=
  match s.heap buffer with
  | none => .error .nullDeref
  | some b =>
    let ev := s.events
    let ev := if b.m_textureRenderTarget ≠ 0 then ev ++ [.Release b.m_textureRenderTarget] else ev
    let ev := if b.m_textureShaderInput ≠ 0 then ev ++ [.Release b.m_textureShaderInput] else ev
    let ev := if b.m_textureUnity ≠ 0 then ev ++ [.Release b.m_textureUnity] else ev
    let ev := if b.m_sharedHandle ≠ 0 then ev ++ [.CloseHandle b.m_sharedHandle] else ev
    .ok { s with heap := Function.update s.heap buffer (some {}), events := ev }

/-- The descriptor `texDesc` built at the top of `InitBuffer`. -/
def texDescOf (s : State) : D3D11_TEXTURE2D_DESC :=
  { Width := s.m_width
    Height := s.m_height
    MipLevels := 1
    ArraySize := 1
    Format := .R8G8B8A8_UNORM
    SampleCount := 1
    BindFlags := [.D3D11_BIND_RENDER_TARGET, .D3D11_BIND_SHADER_RESOURCE]
    CPUAccessFlags := 0
    MiscFlags := [.D3D11_RESOURCE_MISC_SHARED, .D3D11_RESOURCE_MISC_SHARED_NTHANDLE] }

/-- The statement `RenderAPI_D3D11::InitBuffer(buffer)`.
Local pointers: `sharedResource`, `d3d11VLC1`, `textureVLC`. -/
def InitBuffer (hr : InitResults) (buffer : Ptr) (s : State) : Except Stop State :=
  match s.heap buffer with
  | none => .error .nullDeref
  | some b =>
    if s.m_d3deviceUnity = 0 then .error .nullDeref else
    -- hr = m_d3deviceUnity->CreateTexture2D(&texDesc, NULL, &buffer->m_textureUnity);
    -- a failure is only logged
    let n := s.nextPtr
    let tex := if hr.CreateTexture2D then n + 1 else b.m_textureUnity
    let textures :=
      if hr.CreateTexture2D then Function.update s.textures tex (some (texDescOf s)) else s.textures
    let n := if hr.CreateTexture2D then n + 1 else n
    -- hr = buffer->m_textureUnity->QueryInterface(&sharedResource);
    if tex = 0 then .error .nullDeref else
    if !hr.QueryInterface_IDXGIResource1 then .error .abort else
    let sharedResource := n + 1
    let n := n + 1
    -- hr = sharedResource->CreateSharedHandle(..., &buffer->m_sharedHandle);
    if !hr.CreateSharedHandle then .error .abort else
    let handle := n + 1
    let n := n + 1
    let ev := s.events ++ [.Release sharedResource]
    -- hr = m_d3deviceVLC->QueryInterface(&d3d11VLC1);
    if s.m_d3deviceVLC = 0 then .error .nullDeref else
    if !hr.QueryInterface_ID3D11Device1 then .error .abort else
    let d3d11VLC1 := n + 1
    let n := n + 1
    -- hr = d3d11VLC1->OpenSharedResource1(buffer->m_sharedHandle, ..., &textureVLC);
    if !hr.OpenSharedResource1 then .error .abort else
    let textureVLC := n + 1
    let n := n + 1
    let ev := ev ++ [.Release d3d11VLC1]
    -- hr = m_d3deviceUnity->CreateShaderResourceView(..., &buffer->m_textureShaderInput);
    -- a failure is only logged
    let srv := if hr.CreateShaderResourceView then n + 1 else b.m_textureShaderInput
    let n := if hr.CreateShaderResourceView then n + 1 else n
    -- hr = m_d3deviceVLC->CreateRenderTargetView(textureVLC, ..., &buffer->m_textureRenderTarget);
    -- a failure is only logged
    let rtv := if hr.CreateRenderTargetView then n + 1 else b.m_textureRenderTarget
    let n := if hr.CreateRenderTargetView then n + 1 else n
    let ev := ev ++ [.Release textureVLC]
    .ok { s with
          heap := Function.update s.heap buffer
            (some { m_textureUnity := tex, m_textureShaderInput := srv,
                    m_sharedHandle := handle, m_textureRenderTarget := rtv })
          nextPtr := n
          textures := textures
          events := ev }

/-- The statement `RenderAPI_D3D11::Update(width, height)`; `hrFront` and `hrBack` are the
results met by `InitBuffer(m_frontBuffer)` and `InitBuffer(m_backBuffer)`. -/
def Update (width height : Nat) (hrFront hrBack : InitResults) (s : State) :
    Except Stop State := do
  let s := { s with m_width := width, m_height := height }
  let s ← ReleaseBuffer s.m_frontBuffer s
  let s ← ReleaseBuffer s.m_backBuffer s
  let s ← InitBuffer hrFront s.m_frontBuffer s
  InitBuffer hrBack s.m_backBuffer s

/-- The `HRESULT`s of the two fallible calls made by `CreateResources` itself. -/
structure CreateResults where
  D3D11CreateDevice : Bool
  QueryInterface_ID3D10Multithread : Bool
  deriving DecidableEq, Repr

/-- Both calls of `CreateResources` succeed. -/
def CreateResults.allOk : CreateResults := ⟨true, true⟩

/-- The statement `RenderAPI_D3D11::CreateResources(d3device, d3dctx)`. -/
def CreateResources (d3device d3dctx : Ptr) (hr : CreateResults)
    (hrFront hrBack : InitResults) (s : State) : Except Stop State :=
  -- m_frontBuffer = new TextureBuffer; m_backBuffer = new TextureBuffer;
  let front := s.nextPtr + 1
  let back := s.nextPtr + 2
  let heap := Function.update (Function.update s.heap front (some {})) back (some {})
  -- hr = D3D11CreateDevice(..., &m_d3deviceVLC, NULL, &m_d3dctxVLC);
  if !hr.D3D11CreateDevice then .error .abort else
  let deviceVLC := s.nextPtr + 3
  let ctxVLC := s.nextPtr + 4
  -- hr = m_d3deviceUnity->QueryInterface(&pMultithread);
  if d3device = 0 then .error .nullDeref else
  let pMultithread := s.nextPtr + 5
  let ev :=
    if hr.QueryInterface_ID3D10Multithread then
      s.events ++ [.SetMultithreadProtected pMultithread, .Release pMultithread]
    else s.events
  let n := if hr.QueryInterface_ID3D10Multithread then s.nextPtr + 5 else s.nextPtr + 4
  Update SCREEN_WIDTH SCREEN_HEIGHT hrFront hrBack
    { s with
      m_d3deviceUnity := d3device
      m_d3dctxUnity := d3dctx
      m_frontBuffer := front
      m_backBuffer := back
      m_d3deviceVLC := deviceVLC
      m_d3dctxVLC := ctxVLC
      heap := heap
      nextPtr := n
      events := ev }

/-- First block of `ReleaseResources`: `if(m_frontBuffer != nullptr) { ReleaseBuffer(m_frontBuffer);
delete m_frontBuffer; m_frontBuffer = nullptr; }`. -/
def ReleaseResources_front (s : State) : Except Stop State :=
  if s.m_frontBuffer ≠ 0 then
    match ReleaseBuffer s.m_frontBuffer s with
    | .error e => .error e
    | .ok s1 =>
      .ok { s1 with
            heap := Function.update s1.heap s1.m_frontBuffer none
            events := s1.events ++ [.Delete s1.m_frontBuffer]
            m_frontBuffer := 0 }
  else .ok s

/-- Second block of `ReleaseResources`: the same for `m_backBuffer`. -/
def ReleaseResources_back (s : State) : Except Stop State :=
  if s.m_backBuffer ≠ 0 then
    match ReleaseBuffer s.m_backBuffer s with
    | .error e => .error e
    | .ok s1 =>
      .ok { s1 with
            heap := Function.update s1.heap s1.m_backBuffer none
            events := s1.events ++ [.Delete s1.m_backBuffer]
            m_backBuffer := 0 }
  else .ok s

/-- Third block of `ReleaseResources`:
`if(m_d3deviceVLC) { m_d3deviceVLC->Release(); m_d3deviceVLC = nullptr; }`. -/
def ReleaseResources_device (s : State) : State :=
  if s.m_d3deviceVLC ≠ 0 then
    { s with events := s.events ++ [.Release s.m_d3deviceVLC], m_d3deviceVLC := 0 }
  else s

/-- Fourth block of `ReleaseResources`:
`if(m_d3dctxVLC) { m_d3dctxVLC->Release(); m_d3deviceVLC = nullptr; }`.
The assignment is to `m_d3deviceVLC`, as in the source. -/
def ReleaseResources_context (s : State) : State :=
  if s.m_d3dctxVLC ≠ 0 then
    { s with events := s.events ++ [.Release s.m_d3dctxVLC], m_d3deviceVLC := 0 }
  else s

/-- The statement `RenderAPI_D3D11::ReleaseResources()`: its four blocks in order. -/
def ReleaseResources (s : State) : Except Stop State := do
  let s ← ReleaseResources_front s
  let s ← ReleaseResources_back s
  let s := ReleaseResources_device s
  pure (ReleaseResources_context s)

/-- The enumeration `UnityGfxDeviceEventType`. -/
inductive UnityGfxDeviceEventType where
  | kUnityGfxDeviceEventInitialize
  | kUnityGfxDeviceEventShutdown
  | kUnityGfxDeviceEventBeforeReset
  | kUnityGfxDeviceEventAfterReset
  deriving DecidableEq, Repr

/-- What the host answers through `IUnityInterfaces`: the pointer returned by
`Get<IUnityGraphicsD3D11>()`, by `GetDevice()` and by `GetImmediateContext`. -/
structure IUnityInterfaces where
  d3d : Ptr
  d3device : Ptr
  d3dctx : Ptr
  deriving DecidableEq, Repr

/-- The statement `RenderAPI_D3D11::ProcessDeviceEvent(type, interfaces)`. -/
def ProcessDeviceEvent (type : UnityGfxDeviceEventType) (interfaces : IUnityInterfaces)
    (hr : CreateResults) (hrFront hrBack : InitResults) (s : State) : Except Stop State :=
  match type with
  | .kUnityGfxDeviceEventInitialize =>
    if interfaces.d3d = 0 then .ok s
    else if interfaces.d3device = 0 then .ok s
    else if interfaces.d3dctx = 0 then .ok s
    else CreateResources interfaces.d3device interfaces.d3dctx hr hrFront hrBack s
  | .kUnityGfxDeviceEventShutdown => ReleaseResources s
  | .kUnityGfxDeviceEventAfterReset => .ok s
  | .kUnityGfxDeviceEventBeforeReset => .ok s

/-- Some values of `libvlc_video_color_space_t` (from the libvlc headers). -/
inductive libvlc_video_color_space_t where
  | libvlc_video_colorspace_BT601
  | libvlc_video_colorspace_BT709
  | libvlc_video_colorspace_BT2020
  deriving DecidableEq, Repr

/-- Some values of `libvlc_video_color_primaries_t` (from the libvlc headers). -/
inductive libvlc_video_color_primaries_t where
  | libvlc_video_primaries_BT601_525
  | libvlc_video_primaries_BT601_625
  | libvlc_video_primaries_BT709
  | libvlc_video_primaries_BT2020
  deriving DecidableEq, Repr

/-- Some values of `libvlc_video_transfer_func_t` (from the libvlc headers). -/
inductive libvlc_video_transfer_func_t where
  | libvlc_video_transfer_func_LINEAR
  | libvlc_video_transfer_func_SRGB
  | libvlc_video_transfer_func_BT709
  deriving DecidableEq, Repr

/-- The fields of `libvlc_video_direct3d_cfg_t` that the code reads. -/
structure libvlc_video_direct3d_cfg_t where
  width : Nat
  height : Nat
  deriving DecidableEq, Repr

/-- The fields of `libvlc_video_output_cfg_t` that the code writes. -/
structure libvlc_video_output_cfg_t where
  surface_format : DXGI_FORMAT
  full_range : Bool
  colorspace : libvlc_video_color_space_t
  primaries : libvlc_video_color_primaries_t
  transfer : libvlc_video_transfer_func_t
  deriving DecidableEq, Repr

/-- The statement `RenderAPI_D3D11::UpdateOutput(cfg, out)`: the returned `bool`, the
contents written to `*out`, and the new state. -/
def UpdateOutput (cfg : libvlc_video_direct3d_cfg_t) (hrFront hrBack : InitResults)
    (s : State) : Except Stop (Bool × libvlc_video_output_cfg_t × State) := do
  let s ← Update cfg.width cfg.height hrFront hrBack s
  pure (true,
        { surface_format := .R8G8B8A8_UNORM
          full_range := true
          colorspace := .libvlc_video_colorspace_BT709
          primaries := .libvlc_video_primaries_BT709
          transfer := .libvlc_video_transfer_func_LINEAR },
        s)

/-- The statement `RenderAPI_D3D11::Swap()`. -/
def Swap (s : State) : Except Stop State :=
  if s.m_d3dctxVLC = 0 then .error .nullDeref else
  .ok { s with
        events := s.events ++ [.Flush s.m_d3dctxVLC]
        m_frontBuffer := s.m_backBuffer
        m_backBuffer := s.m_frontBuffer
        m_updated := true }

/-- The statement `RenderAPI_D3D11::StartRendering(enter, hdr10)`; `hdr10` is unused. -/
def StartRendering (enter : Bool) (s : State) : Except Stop (Bool × State) :=
  if enter then
    if s.m_d3dctxVLC = 0 then .error .nullDeref else
    match s.heap s.m_backBuffer with
    | none => .error .nullDeref
    | some b =>
      .ok (true,
           { s with
             events := s.events ++
               [.OMSetRenderTargets s.m_d3dctxVLC b.m_textureRenderTarget,
                .ClearRenderTargetView s.m_d3dctxVLC b.m_textureRenderTarget blackRGBA] })
  else .ok (true, s)

/-- The statement `RenderAPI_D3D11::SelectPlane(plane)`. -/
def SelectPlane (plane : Nat) (s : State) : Except Stop (Bool × State) :=
  if plane ≠ 0 then .ok (false, s) else
  if s.m_d3dctxVLC = 0 then .error .nullDeref else
  match s.heap s.m_backBuffer with
  | none => .error .nullDeref
  | some b =>
    .ok (true,
         { s with
           events := s.events ++ [.OMSetRenderTargets s.m_d3dctxVLC b.m_textureRenderTarget] })

/-- The statement `RenderAPI_D3D11::Setup(cfg, out)`: the returned `bool` and the pointer
written to `out->device_context`. -/
def Setup (s : State) : Bool × Ptr := (true, s.m_d3dctxVLC)

/-- The statement `RenderAPI_D3D11::Cleanup()`: an empty body. -/
def Cleanup (s : State) : State := s

/-- The statement `RenderAPI_D3D11::Resize(report_size_change, report_opaque)`. -/
def Resize (report_size_change reportOpaque : Ptr) (s : State) : State :=
  let s := { s with m_ReportSize := report_size_change, m_reportOpaque := reportOpaque }
  if s.m_ReportSize ≠ 0 then
    { s with events := s.events ++ [.ReportSize s.m_ReportSize s.m_reportOpaque s.m_width s.m_height] }
  else s

/-- The statement `RenderAPI_D3D11::getVideoFrame(out_updated)`: the returned pointer and the
value written to `*out_updated`. No member is written. -/
def getVideoFrame (s : State) : Except Stop (Ptr × Bool) :=
  let out_updated := s.m_updated
  match s.heap s.m_frontBuffer with
  | none => .error .nullDeref
  | some b => .ok (b.m_textureShaderInput, out_updated)

/-! ## Observations on the call log -/

/-- The render target bound on context `ctx` after the logged calls: the argument of the
latest `OMSetRenderTargets` on `ctx`, `0` when there is none. -/
def boundRenderTarget (ctx : Ptr) (events : List Event) : Ptr :=
  events.foldl
    (fun cur e =>
      match e with
      | .OMSetRenderTargets c rtv => if c = ctx then rtv else cur
      | _ => cur)
    0

/-- The colour view `rtv` was last cleared to, if it was cleared. -/
def clearedColour (rtv : Ptr) (events : List Event) : Option RGBA :=
  events.foldl
    (fun cur e =>
      match e with
      | .ClearRenderTargetView _ v c => if v = rtv then some c else cur
      | _ => cur)
    none

/-- The invocations of the size callback, in order: `(fn, arg, width, height)`. -/
def reports (events : List Event) : List (Ptr × Ptr × Nat × Nat) :=
  events.filterMap
    (fun e =>
      match e with
      | .ReportSize fn arg w h => some (fn, arg, w, h)
      | _ => none)

/-- The pointers and handles on which `Release` / `CloseHandle` / `delete` was called. -/
def released (events : List Event) : List Ptr :=
  events.filterMap
    (fun e =>
      match e with
      | .Release p => some p
      | .CloseHandle h => some h
      | .Delete b => some b
      | _ => none)

/-- The size `(Width, Height)` the texture of the buffer at address `buffer` was created with. -/
def bufferSize (s : State) (buffer : Ptr) : Option (Nat × Nat) :=
  match s.heap buffer with
  | none => none
  | some b =>
    match s.textures b.m_textureUnity with
    | none => none
    | some d => some (d.Width, d.Height)

/-- A freshly constructed `RenderAPI_D3D11`: every member has its default. -/
def State.fresh : State := {}

/-- An instance whose members are as `CreateResources` leaves them: two distinct live
`TextureBuffer` objects, a decoder device and context, and the host device. -/
structure Initialised (s : State) : Prop where
  front : (s.heap s.m_frontBuffer).isSome
  back : (s.heap s.m_backBuffer).isSome
  distinct : s.m_frontBuffer ≠ s.m_backBuffer
  deviceUnity : s.m_d3deviceUnity ≠ 0
  deviceVLC : s.m_d3deviceVLC ≠ 0
  ctxVLC : s.m_d3dctxVLC ≠ 0

/-! ## Sequences of calls -/

/-- One call on the instance, with the answers of Direct3D to that call: the host's device
event, the decoder callbacks, and the host's `getVideoFrame`. -/
inductive Call where
  | ProcessDeviceEvent (type : UnityGfxDeviceEventType) (interfaces : IUnityInterfaces)
      (hr : CreateResults) (hrFront hrBack : InitResults)
  | UpdateOutput (cfg : libvlc_video_direct3d_cfg_t) (hrFront hrBack : InitResults)
  | Swap
  | StartRendering (enter : Bool)
  | SelectPlane (plane : Nat)
  | Setup
  | Cleanup
  | Resize (report_size_change reportOpaque : Ptr)
  | getVideoFrame
  deriving DecidableEq, Repr

/-- The state after one call, results dropped. -/
def Call.run : Call → State → Except Stop State
  | .ProcessDeviceEvent type interfaces hr hrFront hrBack, s =>
    RenderAPI_D3D11.ProcessDeviceEvent type interfaces hr hrFront hrBack s
  | .UpdateOutput cfg hrFront hrBack, s =>
    match RenderAPI_D3D11.UpdateOutput cfg hrFront hrBack s with
    | .ok (_, _, t) => .ok t
    | .error e => .error e
  | .Swap, s => RenderAPI_D3D11.Swap s
  | .StartRendering enter, s =>
    match RenderAPI_D3D11.StartRendering enter s with
    | .ok (_, t) => .ok t
    | .error e => .error e
  | .SelectPlane plane, s =>
    match RenderAPI_D3D11.SelectPlane plane s with
    | .ok (_, t) => .ok t
    | .error e => .error e
  | .Setup, s => .ok s
  | .Cleanup, s => .ok (RenderAPI_D3D11.Cleanup s)
  | .Resize fn arg, s => .ok (RenderAPI_D3D11.Resize fn arg s)
  | .getVideoFrame, s =>
    match RenderAPI_D3D11.getVideoFrame s with
    | .ok _ => .ok s
    | .error e => .error e

/-- The state after a sequence of calls, made one after the other. -/
def runCalls : List Call → State → Except Stop State
  | [], s => .ok s
  | c :: cs, s =>
    match c.run s with
    | .ok t => runCalls cs t
    | .error e => .error e

/-- The results of the `getVideoFrame` calls of a sequence of calls, in order. -/
def videoFrames : List Call → State → Except Stop (List (Ptr × Bool))
  | [], _ => .ok []
  | c :: cs, s =>
    match c.run s with
    | .error e => .error e
    | .ok t =>
      match c, getVideoFrame s with
      | .getVideoFrame, .ok r =>
        match videoFrames cs t with
        | .ok rs => .ok (r :: rs)
        | .error e => .error e
      | _, _ => videoFrames cs t

/-- The call is `Swap`. -/
def Call.isSwap : Call → Bool
  | .Swap => true
  | _ => false

/-- The call is a host device event that re-creates or deletes the buffers: an Initialize
event whose three host pointers are non-null (it reaches `CreateResources`), or a Shutdown
event (it runs `ReleaseResources`). -/
def Call.recreatesBuffers : Call → Bool
  | .ProcessDeviceEvent .kUnityGfxDeviceEventInitialize interfaces _ _ _ =>
    decide (interfaces.d3d ≠ 0) && decide (interfaces.d3device ≠ 0) &&
      decide (interfaces.d3dctx ≠ 0)
  | .ProcessDeviceEvent .kUnityGfxDeviceEventShutdown _ _ _ _ => true
  | _ => false

/-! ## A running instance used in the closed examples -/

/-- The pointers a host hands over at `kUnityGfxDeviceEventInitialize`. -/
def hostInterfaces : IUnityInterfaces := ⟨1000, 1001, 1002⟩

/-- The instance after the host's Initialize event, every Direct3D call succeeding. -/
def started : Except Stop State :=
  ProcessDeviceEvent .kUnityGfxDeviceEventInitialize hostInterfaces .allOk .allOk .allOk .fresh

/-- The state of that instance. -/
def startedState : State :=
  match started with
  | .ok s => s
  | .error _ => .fresh

/-- Direct3D answers of an `InitBuffer` run in which only `CreateTexture2D` fails. -/
def textureFails : InitResults := { InitResults.allOk with CreateTexture2D := false }

/-- The fixed output description written by `UpdateOutput`. -/
def fixedOutput : libvlc_video_output_cfg_t :=
  { surface_format := .R8G8B8A8_UNORM
    full_range := true
    colorspace := .libvlc_video_colorspace_BT709
    primaries := .libvlc_video_primaries_BT709
    transfer := .libvlc_video_transfer_func_LINEAR }

/-- Direct3D answers of an `InitBuffer` run in which only `CreateShaderResourceView` fails. -/
def srvFails : InitResults := { InitResults.allOk with CreateShaderResourceView := false }

/-- Direct3D answers of an `InitBuffer` run in which only `CreateRenderTargetView` fails. -/
def rtvFails : InitResults := { InitResults.allOk with CreateRenderTargetView := false }

/-- A second Initialize event of the host, every Direct3D call succeeding. -/
def initializeAgain : Call :=
  .ProcessDeviceEvent .kUnityGfxDeviceEventInitialize hostInterfaces .allOk .allOk .allOk

/-- A Shutdown event of the host. -/
def shutdown : Call :=
  .ProcessDeviceEvent .kUnityGfxDeviceEventShutdown hostInterfaces .allOk .allOk .allOk

/-- A BeforeReset event of the host. -/
def beforeReset : Call :=
  .ProcessDeviceEvent .kUnityGfxDeviceEventBeforeReset hostInterfaces .allOk .allOk .allOk

/-- The host's Initialize event, every Direct3D call succeeding, followed by one `Swap`. -/
def startThenSwap : List Call :=
  [.ProcessDeviceEvent .kUnityGfxDeviceEventInitialize hostInterfaces .allOk .allOk .allOk,
   .Swap]

/-! ## Auxiliary notions for the proofs -/

/-- The calls `ReleaseBuffer` makes on a buffer whose members are `b`. -/
def releaseCalls (b : TextureBuffer) : List Event :=
  (if b.m_textureRenderTarget ≠ 0 then [Event.Release b.m_textureRenderTarget] else []) ++
  (if b.m_textureShaderInput ≠ 0 then [Event.Release b.m_textureShaderInput] else []) ++
  (if b.m_textureUnity ≠ 0 then [Event.Release b.m_textureUnity] else []) ++
  (if b.m_sharedHandle ≠ 0 then [Event.CloseHandle b.m_sharedHandle] else [])

/-- The members of the class agree in two states, and so do the callback invocations. -/
structure SameMembers (s t : State) : Prop where
  deviceUnity : t.m_d3deviceUnity = s.m_d3deviceUnity
  ctxUnity : t.m_d3dctxUnity = s.m_d3dctxUnity
  deviceVLC : t.m_d3deviceVLC = s.m_d3deviceVLC
  ctxVLC : t.m_d3dctxVLC = s.m_d3dctxVLC
  front : t.m_frontBuffer = s.m_frontBuffer
  back : t.m_backBuffer = s.m_backBuffer
  width : t.m_width = s.m_width
  height : t.m_height = s.m_height
  reportSize : t.m_ReportSize = s.m_ReportSize
  reportArg : t.m_reportOpaque = s.m_reportOpaque
  updated : t.m_updated = s.m_updated
  reported : reports t.events = reports s.events

/-- What a completed `InitBuffer` run leaves behind. -/
structure InitEffect (hr : InitResults) (a : Ptr) (s t : State) : Prop where
  same : SameMembers s t
  deviceUnity : s.m_d3deviceUnity ≠ 0
  deviceVLC : s.m_d3deviceVLC ≠ 0
  next : s.nextPtr ≤ t.nextPtr
  oldTextures : ∀ p, p ≤ s.nextPtr → t.textures p = s.textures p
  buffers : ∃ b c, s.heap a = some b ∧ t.heap = Function.update s.heap a (some c) ∧
    c.m_textureUnity ≠ 0 ∧ c.m_sharedHandle ≠ 0 ∧
    (hr.CreateTexture2D = true →
      s.nextPtr < c.m_textureUnity ∧ c.m_textureUnity ≤ t.nextPtr ∧
      t.textures c.m_textureUnity = some (texDescOf s)) ∧
    (hr.CreateShaderResourceView = true → c.m_textureShaderInput ≠ 0) ∧
    (hr.CreateShaderResourceView = false → c.m_textureShaderInput = b.m_textureShaderInput) ∧
    (hr.CreateRenderTargetView = true → c.m_textureRenderTarget ≠ 0) ∧
    (hr.CreateRenderTargetView = false → c.m_textureRenderTarget = b.m_textureRenderTarget)

/-- What a completed `Update` run leaves behind. -/
structure UpdateEffect (width height : Nat) (hrFront hrBack : InitResults) (s t : State) :
    Prop where
  same : SameMembers { s with m_width := width, m_height := height } t
  deviceUnity : t.m_d3deviceUnity ≠ 0
  deviceVLC : t.m_d3deviceVLC ≠ 0
  front : ∃ c, t.heap t.m_frontBuffer = some c ∧
    (s.m_frontBuffer ≠ s.m_backBuffer → hrFront = .allOk →
      c.m_textureShaderInput ≠ 0 ∧ c.m_textureRenderTarget ≠ 0 ∧
      bufferSize t t.m_frontBuffer = some (width, height))
  back : ∃ c, t.heap t.m_backBuffer = some c ∧
    (hrBack = .allOk →
      c.m_textureShaderInput ≠ 0 ∧ c.m_textureRenderTarget ≠ 0 ∧
      bufferSize t t.m_backBuffer = some (width, height))
  others : ∀ p, p ≠ s.m_frontBuffer → p ≠ s.m_backBuffer → t.heap p = s.heap p

/-! ## Locks and member accesses

The order in which each method enters and leaves its critical sections and reads and
writes the members, statement by statement, for runs that dereference no null pointer.
A run that ends in `abort()` stops where it aborts. -/

/-- The two `CRITICAL_SECTION` members. -/
inductive Lock where
  | m_outputLock
  | m_sizeLock
  deriving DecidableEq, Repr

/-- The members of `RenderAPI_D3D11` and of `TextureBuffer`. -/
inductive Member where
  | m_d3deviceUnity
  | m_d3dctxUnity
  | m_d3deviceVLC
  | m_d3dctxVLC
  | m_frontBuffer
  | m_backBuffer
  | m_width
  | m_height
  | m_ReportSize
  | m_reportOpaque
  | m_updated
  | m_textureUnity
  | m_textureShaderInput
  | m_sharedHandle
  | m_textureRenderTarget
  deriving DecidableEq, Repr

/-- One step of a method: `EnterCriticalSection`, `LeaveCriticalSection`, a read or a
write of a member. -/
inductive Step where
  | Enter (l : Lock)
  | Leave (l : Lock)
  | Read (m : Member)
  | Write (m : Member)
  deriving DecidableEq, Repr

/-- One guarded release of `ReleaseBuffer`: the test reads the member; when it is non-null
the member is read for the call and then nulled. -/
def releaseMemberSteps (m : Member) (p : Ptr) : List Step :=
  if p ≠ 0 then [.Read m, .Read m, .Write m] else [.Read m]

/-- Steps of `ReleaseBuffer` on a buffer with members `b`. -/
def ReleaseBuffer_steps (b : TextureBuffer) : List Step :=
  releaseMemberSteps .m_textureRenderTarget b.m_textureRenderTarget ++
  releaseMemberSteps .m_textureShaderInput b.m_textureShaderInput ++
  releaseMemberSteps .m_textureUnity b.m_textureUnity ++
  releaseMemberSteps .m_sharedHandle b.m_sharedHandle

/-- The run of `InitBuffer` reaches its end: none of the four calls followed by `abort()`
failed. -/
def InitResults.completes (hr : InitResults) : Bool :=
  hr.QueryInterface_IDXGIResource1 && hr.CreateSharedHandle &&
  hr.QueryInterface_ID3D11Device1 && hr.OpenSharedResource1

/-- Steps of `InitBuffer`; a successful creation call writes its output member. -/
def InitBuffer_steps (hr : InitResults) : List Step :=
  [.Read .m_height, .Read .m_width, .Read .m_d3deviceUnity] ++
  (if hr.CreateTexture2D then [.Write .m_textureUnity] else []) ++
  [.Read .m_textureUnity] ++
  if !hr.QueryInterface_IDXGIResource1 then [] else
  if !hr.CreateSharedHandle then [] else
  [.Write .m_sharedHandle, .Read .m_d3deviceVLC] ++
  if !hr.QueryInterface_ID3D11Device1 then [] else
  [.Read .m_sharedHandle] ++
  if !hr.OpenSharedResource1 then [] else
  [.Read .m_d3deviceUnity, .Read .m_textureUnity] ++
  (if hr.CreateShaderResourceView then [.Write .m_textureShaderInput] else []) ++
  [.Read .m_d3deviceVLC] ++
  (if hr.CreateRenderTargetView then [.Write .m_textureRenderTarget] else [])

/-- Steps of `Update` on an instance whose buffers have members `front` and `back`. -/
def Update_steps (front back : TextureBuffer) (hrFront hrBack : InitResults) : List Step :=
  [.Enter .m_outputLock, .Write .m_width, .Write .m_height, .Read .m_frontBuffer] ++
  ReleaseBuffer_steps front ++
  [.Read .m_backBuffer] ++
  ReleaseBuffer_steps back ++
  [.Read .m_frontBuffer] ++
  InitBuffer_steps hrFront ++
  if !hrFront.completes then [] else
  [.Read .m_backBuffer] ++
  InitBuffer_steps hrBack ++
  if !hrBack.completes then [] else
  [.Leave .m_outputLock]

/-- Steps of `Swap`. -/
def Swap_steps : List Step :=
  [.Enter .m_outputLock, .Read .m_d3dctxVLC,
   .Read .m_frontBuffer, .Read .m_backBuffer, .Write .m_frontBuffer, .Write .m_backBuffer,
   .Write .m_updated, .Leave .m_outputLock]

/-- Steps of `StartRendering(enter, hdr10)`. -/
def StartRendering_steps (enter : Bool) : List Step :=
  if enter then
    [.Read .m_d3dctxVLC, .Read .m_backBuffer, .Read .m_textureRenderTarget,
     .Read .m_d3dctxVLC, .Read .m_backBuffer, .Read .m_textureRenderTarget]
  else []

/-- Steps of `SelectPlane(plane)`. -/
def SelectPlane_steps (plane : Nat) : List Step :=
  if plane ≠ 0 then []
  else [.Read .m_d3dctxVLC, .Read .m_backBuffer, .Read .m_textureRenderTarget]

/-- Steps of `Resize(report_size_change, report_opaque)`. -/
def Resize_steps (report_size_change : Ptr) : List Step :=
  [.Enter .m_sizeLock, .Write .m_ReportSize, .Write .m_reportOpaque, .Read .m_ReportSize] ++
  (if report_size_change ≠ 0 then
    [.Read .m_ReportSize, .Read .m_reportOpaque, .Read .m_width, .Read .m_height]
   else []) ++
  [.Leave .m_sizeLock]

/-- Steps of `getVideoFrame(out_updated)`: the `return` statement comes after
`LeaveCriticalSection`. -/
def getVideoFrame_steps : List Step :=
  [.Enter .m_outputLock, .Read .m_updated, .Leave .m_outputLock,
   .Read .m_frontBuffer, .Read .m_textureShaderInput]

/-- Steps of `ReleaseResources` on an instance with the given pointers, whose buffers
have members `front` and `back`. -/
def ReleaseResources_steps (frontBuffer backBuffer deviceVLC ctxVLC : Ptr)
    (front back : TextureBuffer) : List Step :=
  [.Read .m_frontBuffer] ++
  (if frontBuffer ≠ 0 then
    [.Read .m_frontBuffer] ++ ReleaseBuffer_steps front ++
    [.Read .m_frontBuffer, .Write .m_frontBuffer]
   else []) ++
  [.Read .m_backBuffer] ++
  (if backBuffer ≠ 0 then
    [.Read .m_backBuffer] ++ ReleaseBuffer_steps back ++
    [.Read .m_backBuffer, .Write .m_backBuffer]
   else []) ++
  [.Read .m_d3deviceVLC] ++
  (if deviceVLC ≠ 0 then [.Read .m_d3deviceVLC, .Write .m_d3deviceVLC] else []) ++
  [.Read .m_d3dctxVLC] ++
  (if ctxVLC ≠ 0 then [.Read .m_d3dctxVLC, .Write .m_d3deviceVLC] else [])

/-- Every read or write of a member that `guard` assigns a lock happens while that lock is
among the locks `held`. -/
def lockDisciplined (guard : Member → Option Lock) : List Lock → List Step → Bool
  | _, [] => true
  | held, .Enter l :: rest => lockDisciplined guard (l :: held) rest
  | held, .Leave l :: rest => lockDisciplined guard (held.erase l) rest
  | held, .Read m :: rest =>
    (match guard m with
     | none => true
     | some l => decide (l ∈ held)) && lockDisciplined guard held rest
  | held, .Write m :: rest =>
    (match guard m with
     | none => true
     | some l => decide (l ∈ held)) && lockDisciplined guard held rest

/-- The steps are reads and writes only. -/
def plainSteps (steps : List Step) : Bool :=
  steps.all fun st =>
    match st with
    | .Read _ => true
    | .Write _ => true
    | _ => false

/-- The assignment of locks to members that the specification states: the output lock for
the front/back pointers, the buffers' two views and the updated flag; the size lock for
the callback, its argument and the stored width and height. -/
def specGuard : Member → Option Lock
  | .m_frontBuffer => some .m_outputLock
  | .m_backBuffer => some .m_outputLock
  | .m_textureShaderInput => some .m_outputLock
  | .m_textureRenderTarget => some .m_outputLock
  | .m_updated => some .m_outputLock
  | .m_ReportSize => some .m_sizeLock
  | .m_reportOpaque => some .m_sizeLock
  | .m_width => some .m_sizeLock
  | .m_height => some .m_sizeLock
  | _ => none

/-- The output-lock half of `specGuard`. -/
def outputGuard : Member → Option Lock
  | .m_frontBuffer => some .m_outputLock
  | .m_backBuffer => some .m_outputLock
  | .m_textureShaderInput => some .m_outputLock
  | .m_textureRenderTarget => some .m_outputLock
  | .m_updated => some .m_outputLock
  | _ => none

/-- The statements of `Update` up to and including the two `ReleaseBuffer` calls (lines
188-192): the state, inside the critical section of `Update`, in which both buffers are
released and not yet re-created. -/
def Update_released (width height : Nat) (s : State) : Except Stop State := do
  let s := { s with m_width := width, m_height := height }
  let s ← ReleaseBuffer s.m_frontBuffer s
  ReleaseBuffer s.m_backBuffer s

/-! ## Helper lemmas -/

theorem reports_append (xs ys : List Event) : reports (xs ++ ys) = reports xs ++ reports ys := by
  simp [reports, List.filterMap_append]

theorem reports_releaseCalls (b : TextureBuffer) : reports (releaseCalls b) = [] := by
  simp only [releaseCalls, reports]
  split_ifs <;> simp

theorem bind_ok {α β : Type} {x : Except Stop α} {f : α → Except Stop β} {b : β}
    (h : x >>= f = .ok b) : ∃ a, x = .ok a ∧ f a = .ok b := by
  cases x with
  | error e => cases h
  | ok a => exact ⟨a, rfl, h⟩

theorem SameMembers.refl (s : State) : SameMembers s s :=
  ⟨rfl, rfl, rfl, rfl, rfl, rfl, rfl, rfl, rfl, rfl, rfl, rfl⟩

theorem SameMembers.trans {s t u : State} (h1 : SameMembers s t) (h2 : SameMembers t u) :
    SameMembers s u :=
  ⟨h2.deviceUnity.trans h1.deviceUnity, h2.ctxUnity.trans h1.ctxUnity,
   h2.deviceVLC.trans h1.deviceVLC, h2.ctxVLC.trans h1.ctxVLC,
   h2.front.trans h1.front, h2.back.trans h1.back,
   h2.width.trans h1.width, h2.height.trans h1.height,
   h2.reportSize.trans h1.reportSize, h2.reportArg.trans h1.reportArg,
   h2.updated.trans h1.updated, h2.reported.trans h1.reported⟩

theorem ReleaseBuffer_some {a : Ptr} {s : State} {b : TextureBuffer} (h : s.heap a = some b) :
    ReleaseBuffer a s =
      .ok { s with heap := Function.update s.heap a (some {}),
                   events := s.events ++ releaseCalls b } := by
  simp only [ReleaseBuffer, h, releaseCalls]
  split_ifs <;> simp

theorem ReleaseBuffer_ok {a : Ptr} {s t : State} (h : ReleaseBuffer a s = .ok t) :
    ∃ b, s.heap a = some b ∧
      t = { s with heap := Function.update s.heap a (some {}),
                   events := s.events ++ releaseCalls b } := by
  cases hb : s.heap a with
  | none => simp [ReleaseBuffer, hb] at h
  | some b =>
    rw [ReleaseBuffer_some hb] at h
    exact ⟨b, rfl, (Except.ok.inj h).symm⟩

theorem ReleaseBuffer_same {a : Ptr} {s t : State} (h : ReleaseBuffer a s = .ok t) :
    SameMembers s t := by
  obtain ⟨b, -, rfl⟩ := ReleaseBuffer_ok h
  exact ⟨rfl, rfl, rfl, rfl, rfl, rfl, rfl, rfl, rfl, rfl, rfl, by
    simp [reports_append, reports_releaseCalls]⟩

theorem InitBuffer_ok {hr : InitResults} {a : Ptr} {s t : State}
    (h : InitBuffer hr a s = .ok t) : InitEffect hr a s t := by
  cases hb : s.heap a with
  | none => simp [InitBuffer, hb] at h
  | some b =>
    rcases hr with ⟨c1, c2, c3, c4, c5, c6, c7⟩
    cases c2 <;> cases c3 <;> cases c4 <;> cases c5 <;> cases c1 <;> cases c6 <;> cases c7 <;>
      simp [InitBuffer, hb] at h
    all_goals (try (split_ifs at h <;> simp at h; done))
    all_goals
      split_ifs at h
      cases h
      refine ⟨⟨rfl, rfl, rfl, rfl, rfl, rfl, rfl, rfl, rfl, rfl, rfl, ?_⟩,
        ‹¬s.m_d3deviceUnity = 0›, ‹¬s.m_d3deviceVLC = 0›, ?_, ?_, ⟨b, _, hb, rfl, ?_⟩⟩
      · simp [reports_append, reports]
      · dsimp only; omega
      · intro p hp
        first
          | rfl
          | exact Function.update_noteq (Nat.ne_of_lt (Nat.lt_succ_of_le hp)) _ _
      · refine ⟨?_, ?_, ?_, ?_, ?_, ?_, ?_⟩ <;> simp <;> assumption

theorem Update_ok {width height : Nat} {hrFront hrBack : InitResults} {s t : State}
    (h : Update width height hrFront hrBack s = .ok t) :
    UpdateEffect width height hrFront hrBack s t := by
  unfold Update at h
  obtain ⟨s1, h1, h⟩ := bind_ok h
  obtain ⟨s2, h2, h⟩ := bind_ok h
  obtain ⟨s3, h3, h4⟩ := bind_ok h
  have m1 := ReleaseBuffer_same h1
  have m2 := ReleaseBuffer_same h2
  have e3 := InitBuffer_ok h3
  have e4 := InitBuffer_ok h4
  have m12 := m1.trans m2
  have m13 := m12.trans e3.same
  have m14 := m13.trans e4.same
  obtain ⟨r1, -, rfl⟩ := ReleaseBuffer_ok h1
  obtain ⟨r2, -, rfl⟩ := ReleaseBuffer_ok h2
  obtain ⟨b3, c3, hb3, hc3, t3, -, x3, v3, -, w3, -⟩ := e3.buffers
  obtain ⟨b4, c4, hb4, hc4, t4, -, x4, v4, -, w4, -⟩ := e4.buffers
  have hfront : s3.m_frontBuffer = s.m_frontBuffer := m13.front
  have hback : s3.m_backBuffer = s.m_backBuffer := m13.back
  have hfront4 : t.m_frontBuffer = s.m_frontBuffer := m14.front
  have hback4 : t.m_backBuffer = s.m_backBuffer := m14.back
  dsimp only at hc3 hb3 hfront hback hfront4 hback4
  refine ⟨m14, ?_, ?_, ?_, ?_, ?_⟩
  · rw [m14.deviceUnity]; exact e3.deviceUnity
  · rw [m14.deviceVLC]; exact e3.deviceVLC
  · by_cases hd : s.m_frontBuffer = s.m_backBuffer
    · refine ⟨c4, ?_, fun hne => absurd hd hne⟩
      rw [hc4, hfront4, hback, hd, Function.update_same]
    · refine ⟨c3, ?_, fun _ hok => ?_⟩
      · rw [hc4, hfront4, hback, Function.update_noteq hd, hc3, Function.update_same]
      · subst hok
        obtain ⟨lo, hi, ht⟩ := x3 rfl
        refine ⟨v3 rfl, w3 rfl, ?_⟩
        have hh : t.heap t.m_frontBuffer = some c3 := by
          rw [hc4, hfront4, hback, Function.update_noteq hd, hc3, Function.update_same]
        simp only [bufferSize, hh]
        rw [e4.oldTextures _ hi, ht]
        rfl
  · refine ⟨c4, ?_, fun hok => ?_⟩
    · rw [hc4, hback4, hback, Function.update_same]
    · subst hok
      obtain ⟨lo, hi, ht⟩ := x4 rfl
      refine ⟨v4 rfl, w4 rfl, ?_⟩
      have hh : t.heap t.m_backBuffer = some c4 := by
        rw [hc4, hback4, hback, Function.update_same]
      simp only [bufferSize, hh, ht]
      have hw : s3.m_width = width := m13.width
      have hh2 : s3.m_height = height := m13.height
      simp [texDescOf, hw, hh2]
  · intro p hpf hpb
    rw [hc4, hback, Function.update_noteq hpb, hc3, Function.update_noteq hpf]
    simp [Function.update_noteq hpf, Function.update_noteq hpb]

theorem boundRenderTarget_append_set (ctx rtv : Ptr) (events : List Event) :
    boundRenderTarget ctx (events ++ [.OMSetRenderTargets ctx rtv]) = rtv := by
  simp [boundRenderTarget, List.foldl_append]

theorem Initialised.frontSome {s : State} (hs : Initialised s) :
    ∃ b, s.heap s.m_frontBuffer = some b :=
  Option.isSome_iff_exists.mp hs.front

theorem Initialised.backSome {s : State} (hs : Initialised s) :
    ∃ b, s.heap s.m_backBuffer = some b :=
  Option.isSome_iff_exists.mp hs.back

theorem started_eq : started = .ok startedState := rfl

theorem startedState_initialised : Initialised startedState :=
  ⟨by decide, by decide, by decide, by decide, by decide, by decide⟩

theorem Update_initialised {width height : Nat} {hrFront hrBack : InitResults} {s t : State}
    (hs : s.m_frontBuffer ≠ s.m_backBuffer) (hc : s.m_d3dctxVLC ≠ 0)
    (h : Update width height hrFront hrBack s = .ok t) : Initialised t := by
  have e := Update_ok h
  obtain ⟨c, hc1, -⟩ := e.front
  obtain ⟨d, hd1, -⟩ := e.back
  refine ⟨by simp [hc1], by simp [hd1], ?_, e.deviceUnity, e.deviceVLC, ?_⟩
  · rw [e.same.front, e.same.back]; exact hs
  · rw [e.same.ctxVLC]; exact hc

theorem Swap_ok {s : State} (hs : Initialised s) :
    ∃ t, Swap s = .ok t ∧ Initialised t ∧ t.m_frontBuffer = s.m_backBuffer ∧
      t.m_backBuffer = s.m_frontBuffer ∧ t.m_updated = true ∧ t.heap = s.heap ∧
      t.events = s.events ++ [.Flush s.m_d3dctxVLC] := by
  unfold Swap
  rw [if_neg hs.ctxVLC]
  exact ⟨_, rfl,
    ⟨hs.back, hs.front, fun h => hs.distinct h.symm, hs.deviceUnity, hs.deviceVLC, hs.ctxVLC⟩,
    rfl, rfl, rfl, rfl, rfl⟩

/-- A call other than `Swap` and the device events that re-create or delete the buffers keeps
an initialised instance initialised and keeps the front/back designation and the updated
flag. -/
theorem Call.run_keeps {c : Call} {s t : State} (hs : Initialised s)
    (h1 : c.isSwap = false) (h2 : c.recreatesBuffers = false) (h : c.run s = .ok t) :
    Initialised t ∧ t.m_frontBuffer = s.m_frontBuffer ∧ t.m_backBuffer = s.m_backBuffer ∧
      t.m_updated = s.m_updated := by
  cases c with
  | ProcessDeviceEvent type interfaces hr hrFront hrBack =>
    simp only [Call.run, RenderAPI_D3D11.ProcessDeviceEvent] at h
    cases type with
    | kUnityGfxDeviceEventInitialize =>
      simp only [Call.recreatesBuffers, Bool.and_eq_false_iff, decide_eq_false_iff_not,
        ne_eq, not_not] at h2
      dsimp only at h
      split_ifs at h with a1 a2 a3
      · cases h; exact ⟨hs, rfl, rfl, rfl⟩
      · cases h; exact ⟨hs, rfl, rfl, rfl⟩
      · cases h; exact ⟨hs, rfl, rfl, rfl⟩
      · rcases h2 with (h2 | h2) | h2
        · exact absurd h2 a1
        · exact absurd h2 a2
        · exact absurd h2 a3
    | kUnityGfxDeviceEventShutdown => simp [Call.recreatesBuffers] at h2
    | kUnityGfxDeviceEventBeforeReset => cases h; exact ⟨hs, rfl, rfl, rfl⟩
    | kUnityGfxDeviceEventAfterReset => cases h; exact ⟨hs, rfl, rfl, rfl⟩
  | Swap => simp [Call.isSwap] at h1
  | UpdateOutput cfg hrFront hrBack =>
    simp only [Call.run, RenderAPI_D3D11.UpdateOutput] at h
    cases hu : Update cfg.width cfg.height hrFront hrBack s with
    | error e => simp [hu, bind, Except.bind] at h
    | ok u =>
      simp [hu, bind, Except.bind, pure, Except.pure] at h
      subst h
      have e := Update_ok hu
      exact ⟨Update_initialised hs.distinct hs.ctxVLC hu, e.same.front, e.same.back,
        e.same.updated⟩
  | StartRendering enter =>
    obtain ⟨b, hb⟩ := hs.backSome
    cases enter <;> simp [Call.run, RenderAPI_D3D11.StartRendering, hs.ctxVLC, hb] at h <;> subst h
    · exact ⟨hs, rfl, rfl, rfl⟩
    · exact ⟨⟨hs.front, hs.back, hs.distinct, hs.deviceUnity, hs.deviceVLC, hs.ctxVLC⟩,
        rfl, rfl, rfl⟩
  | SelectPlane plane =>
    obtain ⟨b, hb⟩ := hs.backSome
    by_cases hp : plane = 0 <;> simp [Call.run, RenderAPI_D3D11.SelectPlane, hs.ctxVLC, hb, hp] at h <;> subst h
    · exact ⟨⟨hs.front, hs.back, hs.distinct, hs.deviceUnity, hs.deviceVLC, hs.ctxVLC⟩,
        rfl, rfl, rfl⟩
    · exact ⟨hs, rfl, rfl, rfl⟩
  | Setup =>
    simp [Call.run] at h; subst h; exact ⟨hs, rfl, rfl, rfl⟩
  | Cleanup =>
    simp [Call.run, RenderAPI_D3D11.Cleanup] at h; subst h; exact ⟨hs, rfl, rfl, rfl⟩
  | Resize fn arg =>
    simp only [Call.run] at h
    have h := Except.ok.inj h
    subst h
    simp only [RenderAPI_D3D11.Resize]
    split_ifs
    · exact ⟨⟨hs.front, hs.back, hs.distinct, hs.deviceUnity, hs.deviceVLC, hs.ctxVLC⟩,
        rfl, rfl, rfl⟩
    · exact ⟨⟨hs.front, hs.back, hs.distinct, hs.deviceUnity, hs.deviceVLC, hs.ctxVLC⟩,
        rfl, rfl, rfl⟩
  | getVideoFrame =>
    obtain ⟨b, hb⟩ := hs.frontSome
    simp [Call.run, RenderAPI_D3D11.getVideoFrame, hb] at h
    subst h
    exact ⟨hs, rfl, rfl, rfl⟩

theorem runCalls_keeps {cs : List Call} {s t : State} (hs : Initialised s)
    (hcs : ∀ c ∈ cs, c.isSwap = false ∧ c.recreatesBuffers = false)
    (h : runCalls cs s = .ok t) :
    Initialised t ∧ t.m_frontBuffer = s.m_frontBuffer ∧ t.m_backBuffer = s.m_backBuffer ∧
      t.m_updated = s.m_updated := by
  induction cs generalizing s with
  | nil =>
    simp only [runCalls] at h
    have h := Except.ok.inj h
    subst h
    exact ⟨hs, rfl, rfl, rfl⟩
  | cons c cs ih =>
    simp only [runCalls] at h
    cases hc : c.run s with
    | error e => simp [hc] at h
    | ok u =>
      simp only [hc] at h
      have hcc := hcs c (List.mem_cons_self _ _)
      obtain ⟨i1, f1, b1, u1⟩ := Call.run_keeps hs hcc.1 hcc.2 hc
      obtain ⟨i2, f2, b2, u2⟩ := ih i1 (fun d hd => hcs d (List.mem_cons_of_mem _ hd)) h
      exact ⟨i2, f2.trans f1, b2.trans b1, u2.trans u1⟩

/-! ## The claims -/

/-- C7. On an initialised instance `SelectPlane(0)` returns `true` and its only effect is the
call `OMSetRenderTargets(1, &m_backBuffer->m_textureRenderTarget, NULL)` on the decoder
context, after which the back buffer's write view is the bound render target; for every
plane index other than `0` it returns `false` and the state, call log included, is the
state it started from. -/
theorem SelectPlane_only_plane_zero (s : State) (hs : Initialised s) :
    (∃ b, s.heap s.m_backBuffer = some b ∧
      SelectPlane 0 s =
        .ok (true, { s with events := s.events ++
          [.OMSetRenderTargets s.m_d3dctxVLC b.m_textureRenderTarget] }) ∧
      boundRenderTarget s.m_d3dctxVLC
        (s.events ++ [.OMSetRenderTargets s.m_d3dctxVLC b.m_textureRenderTarget]) =
        b.m_textureRenderTarget) ∧
    ∀ plane : Nat, plane ≠ 0 → SelectPlane plane s = .ok (false, s) := by
  refine ⟨?_, fun plane hp => ?_⟩
  · obtain ⟨b, hb⟩ := hs.backSome
    refine ⟨b, hb, ?_, boundRenderTarget_append_set _ _ _⟩
    simp [SelectPlane, hs.ctxVLC, hb]
  · simp [SelectPlane, hp]

/-- C6. `Resize(fn, arg)` with `fn` non-null stores `fn` and `arg` and appends exactly one
callback invocation `fn(arg, m_width, m_height)` to the call log; it changes nothing else
(size, front/back and the updated flag stay). After an `Update(640, 480)` that completed,
the invocation carries `(640, 480)`. With `fn` null the two members are stored and nothing
is invoked. -/
theorem Resize_reports_current_size (s : State) (fn arg : Ptr) (hfn : fn ≠ 0) :
    Resize fn arg s =
      { s with m_ReportSize := fn, m_reportOpaque := arg,
               events := s.events ++ [.ReportSize fn arg s.m_width s.m_height] } ∧
    reports (Resize fn arg s).events = reports s.events ++ [(fn, arg, s.m_width, s.m_height)] ∧
    (Resize fn arg s).m_width = s.m_width ∧ (Resize fn arg s).m_height = s.m_height ∧
    (Resize fn arg s).m_frontBuffer = s.m_frontBuffer ∧
    (Resize fn arg s).m_backBuffer = s.m_backBuffer ∧
    (Resize fn arg s).m_updated = s.m_updated ∧
    (∀ (hrFront hrBack : InitResults) (t : State),
      Update 640 480 hrFront hrBack s = .ok t →
      (Resize fn arg t).events = t.events ++ [.ReportSize fn arg 640 480]) ∧
    Resize 0 arg s = { s with m_ReportSize := 0, m_reportOpaque := arg } := by
  have h1 : Resize fn arg s =
      { s with m_ReportSize := fn, m_reportOpaque := arg,
               events := s.events ++ [.ReportSize fn arg s.m_width s.m_height] } := by
    simp [Resize, hfn]
  refine ⟨h1, ?_, ?_, ?_, ?_, ?_, ?_, ?_, ?_⟩
  · rw [h1]; simp [reports_append, reports]
  · rw [h1]
  · rw [h1]
  · rw [h1]
  · rw [h1]
  · rw [h1]
  · intro hrFront hrBack t ht
    have e := Update_ok ht
    have hw : t.m_width = 640 := e.same.width
    have hh : t.m_height = 480 := e.same.height
    simp [Resize, hfn, hw, hh]
  · simp [Resize]

/-- C6, at a concrete input: on the running instance (size `100 x 100`) registering the
callback `7` with argument `9` invokes it once with `(9, 100, 100)`; after a resize to
`640 x 480` the registration invokes it with `(9, 640, 480)`. -/
theorem Resize_reports_current_size_witness :
    (7 : Ptr) ≠ 0 ∧
    reports (Resize 7 9 startedState).events = [(7, 9, 100, 100)] ∧
    ∃ t, Update 640 480 .allOk .allOk startedState = .ok t ∧
      (Resize 7 9 t).events = t.events ++ [.ReportSize 7 9 640 480] :=
  ⟨by decide,
   (Resize_reports_current_size startedState 7 9 (by decide)).2.1,
   _, rfl,
   (Resize_reports_current_size startedState 7 9 (by decide)).2.2.2.2.2.2.2.1
     .allOk .allOk _ rfl⟩

/-- C7, at a concrete input: on the running instance plane `1` is refused and nothing changes. -/
theorem SelectPlane_only_plane_zero_witness :
    SelectPlane 1 startedState = .ok (false, startedState) :=
  (SelectPlane_only_plane_zero startedState startedState_initialised).2 1 (by decide)

/-- C1, as stated, fails. On the running instance (back buffer `2`, sampling view `18`):
after `Swap` the first `getVideoFrame` returns `(18, true)`; after a second Initialize event
of the host, still before any further `Swap`, `getVideoFrame` returns `(30, true)`, the view
of a newly allocated front buffer, while buffer `2` still holds the view `18`; and after a
Shutdown event instead, `getVideoFrame` dereferences the null `m_frontBuffer`. -/
theorem getVideoFrame_after_Swap_and_device_event :
    videoFrames [.Swap, .getVideoFrame, initializeAgain, .getVideoFrame] startedState =
      .ok [(18, true), (30, true)] ∧
    (∃ u, runCalls [.Swap, .getVideoFrame, initializeAgain] startedState = .ok u ∧
      startedState.m_backBuffer = 2 ∧ u.heap 2 = some ⟨13, 18, 15, 19⟩ ∧
      u.m_frontBuffer = 20 ∧ getVideoFrame u = .ok (30, true)) ∧
    videoFrames [.Swap, .getVideoFrame, shutdown, .getVideoFrame] startedState =
      .error .nullDeref := by
  refine ⟨rfl, ⟨_, rfl, rfl, ?_, rfl, rfl⟩, rfl⟩
  decide

/-- C1, amended. On an initialised instance with front `F` and back `B`, `Swap()` returns and
makes `B` the front buffer and `F` the back buffer. From then on, after any calls that
returned and that are neither a `Swap` nor a host device event that re-creates or deletes
the buffers (an Initialize event that delivers a device, or a Shutdown event) -- so after
any number of `getVideoFrame` calls, resizes, plane selections, registrations, reset
events, ... -- `B` is still the front buffer, the updated flag is still set, and
`getVideoFrame()` returns the sampling view held by `B` and `wasUpdated = true`.
`getVideoFrame` has no state to change: it only reads. -/
theorem getVideoFrame_after_Swap (s : State) (hs : Initialised s) :
    ∃ t, Swap s = .ok t ∧ t.m_frontBuffer = s.m_backBuffer ∧
      t.m_backBuffer = s.m_frontBuffer ∧
      (∃ b, s.heap s.m_backBuffer = some b ∧
        getVideoFrame t = .ok (b.m_textureShaderInput, true)) ∧
      ∀ (cs : List Call) (u : State),
        (∀ c ∈ cs, c.isSwap = false ∧ c.recreatesBuffers = false) →
        runCalls cs t = .ok u →
        u.m_frontBuffer = s.m_backBuffer ∧ u.m_backBuffer = s.m_frontBuffer ∧
        u.m_updated = true ∧
        ∃ b, u.heap s.m_backBuffer = some b ∧
          getVideoFrame u = .ok (b.m_textureShaderInput, true) ∧
          Call.run .getVideoFrame u = .ok u := by
  obtain ⟨t, hsw, it, ft, bt, ut, ht, -⟩ := Swap_ok hs
  refine ⟨t, hsw, ft, bt, ?_, ?_⟩
  · obtain ⟨b, hb⟩ := hs.backSome
    exact ⟨b, hb, by simp [getVideoFrame, ft, ht, hb, ut]⟩
  · intro cs u hcs hu
    obtain ⟨iu, fu, bu, uu⟩ := runCalls_keeps it hcs hu
    rw [ft] at fu
    rw [bt] at bu
    rw [ut] at uu
    obtain ⟨b, hb⟩ := iu.frontSome
    rw [fu] at hb
    refine ⟨fu, bu, uu, b, hb, ?_, ?_⟩
    · simp [getVideoFrame, fu, hb, uu]
    · simp [Call.run, getVideoFrame, fu, hb]

/-- C1 amended, at a concrete input: the running instance has back buffer `2`, whose
sampling view is `18`; after `Swap`, a `getVideoFrame`, a BeforeReset event, a plane
selection and a registration, buffer `2` is the front, the flag is set and `getVideoFrame`
returns `(18, true)`. -/
theorem getVideoFrame_after_Swap_witness :
    ∃ t u, Swap startedState = .ok t ∧ t.m_frontBuffer = 2 ∧
      runCalls [.getVideoFrame, beforeReset, .SelectPlane 0, .Resize 7 9] t = .ok u ∧
      u.m_frontBuffer = 2 ∧ u.m_updated = true ∧ getVideoFrame u = .ok (18, true) := by
  obtain ⟨t, h1, h2, -, -, h3⟩ :=
    getVideoFrame_after_Swap startedState startedState_initialised
  obtain ⟨u, hu⟩ : ∃ u, runCalls [.getVideoFrame, beforeReset, .SelectPlane 0, .Resize 7 9] t
      = .ok u := by
    cases Except.ok.inj h1
    exact ⟨_, rfl⟩
  obtain ⟨f, -, w, -⟩ := h3 _ u (by decide) hu
  refine ⟨t, u, h1, h2, hu, f, w, ?_⟩
  cases Except.ok.inj h1
  cases Except.ok.inj hu
  rfl

theorem ReleaseResources_updated {s t : State} (h : ReleaseResources s = .ok t) :
    t.m_updated = s.m_updated := by
  unfold ReleaseResources at h
  obtain ⟨s1, h1, h⟩ := bind_ok h
  obtain ⟨s2, h2, h⟩ := bind_ok h
  have e1 : s1.m_updated = s.m_updated := by
    unfold ReleaseResources_front at h1
    split_ifs at h1
    · cases hr : ReleaseBuffer s.m_frontBuffer s with
      | error e => simp [hr] at h1
      | ok r =>
        simp only [hr] at h1
        cases h1
        exact (ReleaseBuffer_same hr).updated
    · cases h1; rfl
  have e2 : s2.m_updated = s1.m_updated := by
    unfold ReleaseResources_back at h2
    split_ifs at h2
    · cases hr : ReleaseBuffer s1.m_backBuffer s1 with
      | error e => simp [hr] at h2
      | ok r =>
        simp only [hr] at h2
        cases h2
        exact (ReleaseBuffer_same hr).updated
    · cases h2; rfl
  have h := Except.ok.inj h
  subst h
  rw [← e1, ← e2]
  unfold ReleaseResources_context ReleaseResources_device
  split_ifs <;> rfl


theorem CreateResources_updated {d3device d3dctx : Ptr} {hr : CreateResults}
    {hrFront hrBack : InitResults} {s t : State}
    (h : CreateResources d3device d3dctx hr hrFront hrBack s = .ok t) :
    t.m_updated = s.m_updated := by
  unfold CreateResources at h
  dsimp only at h
  split_ifs at h
  all_goals exact (Update_ok h).same.updated

theorem Call.run_updated {c : Call} {s t : State} (h : c.run s = .ok t) :
    t.m_updated = (s.m_updated || c.isSwap) := by
  cases c with
  | ProcessDeviceEvent type interfaces hr hrFront hrBack =>
    simp only [Call.isSwap, Bool.or_false]
    simp only [Call.run, RenderAPI_D3D11.ProcessDeviceEvent] at h
    cases type
    · dsimp only at h
      split_ifs at h
      · cases h; rfl
      · cases h; rfl
      · cases h; rfl
      · exact CreateResources_updated h
    · exact ReleaseResources_updated h
    · cases h; rfl
    · cases h; rfl
  | Swap =>
    simp only [Call.run, RenderAPI_D3D11.Swap] at h
    split_ifs at h
    cases h
    simp [Call.isSwap]
  | UpdateOutput cfg hrFront hrBack =>
    simp only [Call.run, RenderAPI_D3D11.UpdateOutput] at h
    cases hu : Update cfg.width cfg.height hrFront hrBack s with
    | error e => simp [hu, bind, Except.bind] at h
    | ok u =>
      simp [hu, bind, Except.bind, pure, Except.pure] at h
      subst h
      simpa [Call.isSwap] using (Update_ok hu).same.updated
  | StartRendering enter =>
    simp only [Call.run, RenderAPI_D3D11.StartRendering] at h
    cases enter
    · simp at h; subst h; simp [Call.isSwap]
    · simp only [if_true] at h
      split_ifs at h
      cases hb : s.heap s.m_backBuffer with
      | none => simp [hb] at h
      | some b => simp [hb] at h; subst h; simp [Call.isSwap]
  | SelectPlane plane =>
    simp only [Call.run, RenderAPI_D3D11.SelectPlane] at h
    split_ifs at h
    · simp at h; subst h; simp [Call.isSwap]
    · cases hb : s.heap s.m_backBuffer with
      | none => simp [hb] at h
      | some b => simp [hb] at h; subst h; simp [Call.isSwap]
  | Setup => simp [Call.run] at h; subst h; simp [Call.isSwap]
  | Cleanup => simp [Call.run, RenderAPI_D3D11.Cleanup] at h; subst h; simp [Call.isSwap]
  | Resize fn arg =>
    simp only [Call.run] at h
    have h := Except.ok.inj h
    subst h
    simp only [RenderAPI_D3D11.Resize, Call.isSwap, Bool.or_false]
    split_ifs <;> rfl
  | getVideoFrame =>
    simp only [Call.run] at h
    cases hg : RenderAPI_D3D11.getVideoFrame s with
    | error e => simp [hg] at h
    | ok r => simp [hg] at h; subst h; simp [Call.isSwap]

theorem runCalls_updated {cs : List Call} {s t : State} (h : runCalls cs s = .ok t) :
    t.m_updated = (s.m_updated || cs.any Call.isSwap) := by
  induction cs generalizing s with
  | nil =>
    simp only [runCalls] at h
    have h := Except.ok.inj h
    subst h
    simp
  | cons c cs ih =>
    simp only [runCalls] at h
    cases hc : c.run s with
    | error e => simp [hc] at h
    | ok u =>
      simp only [hc] at h
      rw [ih h, Call.run_updated hc, List.any_cons, Bool.or_assoc]


theorem Call.isSwap_iff (c : Call) : c.isSwap = true ↔ c = .Swap := by
  cases c <;> simp [Call.isSwap]

/-- C8, as stated, fails. On the running instance (front view `11`, back view `18`):
after one `Swap`, two `getVideoFrame` calls in a row both return the handle `18`, and the
second still reports `wasUpdated = true`; and with no `Swap` at all, a resize between two
`getVideoFrame` calls changes the handle from `11` to `25` while `wasUpdated` is `false`. -/
theorem getVideoFrame_flag_is_not_handle_change :
    videoFrames [.Swap, .getVideoFrame, .getVideoFrame] startedState =
      .ok [(18, true), (18, true)] ∧
    videoFrames [.getVideoFrame, .UpdateOutput ⟨640, 480⟩ .allOk .allOk, .getVideoFrame]
      startedState = .ok [(11, false), (25, false)] := by
  constructor <;> rfl

/-- C8, amended. On an instance reached from a freshly constructed one by any calls that
returned, `getVideoFrame()` returns the front buffer's sampling view together with
`wasUpdated`, where `wasUpdated` is `true` exactly when one of those calls was a `Swap`
(the flag is set by `Swap` and never cleared); the call changes no state, so a second
call in a row returns the same pair. -/
theorem getVideoFrame_flag_is_any_Swap (cs : List Call) (u : State)
    (h : runCalls cs State.fresh = .ok u) (p : Ptr) (wasUpdated : Bool)
    (hg : getVideoFrame u = .ok (p, wasUpdated)) :
    (∃ b, u.heap u.m_frontBuffer = some b ∧ p = b.m_textureShaderInput) ∧
    (wasUpdated = true ↔ Call.Swap ∈ cs) ∧
    Call.run .getVideoFrame u = .ok u := by
  have hu := runCalls_updated h
  simp only [getVideoFrame] at hg
  cases hb : u.heap u.m_frontBuffer with
  | none => simp [hb] at hg
  | some b =>
    simp only [hb, Except.ok.injEq, Prod.mk.injEq] at hg
    obtain ⟨hp, hw⟩ := hg
    refine ⟨⟨b, rfl, hp.symm⟩, ?_, ?_⟩
    · rw [← hw, hu]
      simp only [State.fresh, Bool.false_or, List.any_eq_true]
      constructor
      · rintro ⟨c, hc, hsw⟩
        rw [(Call.isSwap_iff c).mp hsw] at hc
        exact hc
      · intro hc
        exact ⟨_, hc, rfl⟩
    · simp [Call.run, getVideoFrame, hb]

/-- C8 amended, at a concrete input: Initialize, `Swap`, then `getVideoFrame`. -/
theorem getVideoFrame_flag_is_any_Swap_witness :
    ∃ u, runCalls startThenSwap State.fresh = .ok u ∧
      getVideoFrame u = .ok (18, true) ∧ Call.Swap ∈ startThenSwap := by
  refine ⟨_, rfl, rfl, ?_⟩
  exact (getVideoFrame_flag_is_any_Swap startThenSwap _ rfl 18 true rfl).2.1.mp rfl

/-- C5, as stated, fails. On the running instance (size `100 x 100`) the callback `7` is
registered with argument `9`; the following `UpdateOutput` to `640 x 480` returns and
changes the stored size, and the only invocation of the callback ever made is the one of
the registration, with `(100, 100)`. -/
theorem Update_does_not_report :
    (runCalls [.Resize 7 9, .UpdateOutput ⟨640, 480⟩ .allOk .allOk] startedState).map
      (fun t => (t.m_ReportSize, t.m_width, t.m_height, reports t.events)) =
      .ok (7, 640, 480, [(7, 9, 100, 100)]) := by
  rfl

/-- C5, amended. `Update(w, h)` and `UpdateOutput(cfg)`, when they return, store the new
size, keep the registered callback and its argument, and invoke no callback: the list of
callback invocations is the one from before the call. (The callback is invoked by `Resize`
alone, at registration.) -/
theorem Update_invokes_no_callback (s t : State) (width height : Nat)
    (hrFront hrBack : InitResults) (h : Update width height hrFront hrBack s = .ok t) :
    t.m_width = width ∧ t.m_height = height ∧
    t.m_ReportSize = s.m_ReportSize ∧ t.m_reportOpaque = s.m_reportOpaque ∧
    reports t.events = reports s.events ∧
    ∃ out, UpdateOutput ⟨width, height⟩ hrFront hrBack s = .ok (true, out, t) := by
  have e := (Update_ok h).same
  refine ⟨e.width, e.height, e.reportSize, e.reportArg, e.reported, ?_⟩
  simp [UpdateOutput, h, bind, Except.bind, pure, Except.pure]

/-- C5 amended, at a concrete input: the running instance with callback `7` registered,
resized to `640 x 480`. -/
theorem Update_invokes_no_callback_witness :
    ∃ t, Update 640 480 .allOk .allOk (Resize 7 9 startedState) = .ok t ∧
      reports t.events = [(7, 9, 100, 100)] := by
  refine ⟨_, rfl, ?_⟩
  rw [(Update_invokes_no_callback (Resize 7 9 startedState) _ 640 480 .allOk .allOk rfl).2.2.2.2.1]
  rfl


/-- `InitBuffer` returns normally whenever the texture exists and the four calls on the
shared-handle path succeed, whatever the two view creations answer. -/
theorem InitBuffer_returns {hr : InitResults} {a : Ptr} {s : State} {b : TextureBuffer}
    (hb : s.heap a = some b) (hu : s.m_d3deviceUnity ≠ 0) (hv : s.m_d3deviceVLC ≠ 0)
    (h1 : hr.CreateTexture2D = true) (h2 : hr.QueryInterface_IDXGIResource1 = true)
    (h3 : hr.CreateSharedHandle = true) (h4 : hr.QueryInterface_ID3D11Device1 = true)
    (h5 : hr.OpenSharedResource1 = true) :
    ∃ t, InitBuffer hr a s = .ok t := by
  rcases hr with ⟨c1, c2, c3, c4, c5, c6, c7⟩
  dsimp only at h1 h2 h3 h4 h5
  subst h1 h2 h3 h4 h5
  cases c6 <;> cases c7 <;> simp [InitBuffer, hb, hu, hv]

/-- On an initialised instance `Update` returns when the calls on the texture and
shared-handle path succeed. -/
theorem Update_returns {hrFront hrBack : InitResults} {s : State} (hs : Initialised s)
    (width height : Nat)
    (f1 : hrFront.CreateTexture2D = true) (f2 : hrFront.QueryInterface_IDXGIResource1 = true)
    (f3 : hrFront.CreateSharedHandle = true) (f4 : hrFront.QueryInterface_ID3D11Device1 = true)
    (f5 : hrFront.OpenSharedResource1 = true)
    (b1 : hrBack.CreateTexture2D = true) (b2 : hrBack.QueryInterface_IDXGIResource1 = true)
    (b3 : hrBack.CreateSharedHandle = true) (b4 : hrBack.QueryInterface_ID3D11Device1 = true)
    (b5 : hrBack.OpenSharedResource1 = true) :
    ∃ t, Update width height hrFront hrBack s = .ok t := by
  obtain ⟨x, hx⟩ := hs.frontSome
  obtain ⟨y, hy⟩ := hs.backSome
  have r1 := ReleaseBuffer_some
    (s := { s with m_width := width, m_height := height }) (a := s.m_frontBuffer) hx
  have hy2 : (Function.update s.heap s.m_frontBuffer (some {})) s.m_backBuffer = some y := by
    rw [Function.update_noteq (Ne.symm hs.distinct)]; exact hy
  have r2 := ReleaseBuffer_some
    (s := { s with m_width := width, m_height := height,
                   heap := Function.update s.heap s.m_frontBuffer (some {}),
                   events := s.events ++ releaseCalls x }) (a := s.m_backBuffer) hy2
  have hz : (Function.update (Function.update s.heap s.m_frontBuffer (some {}))
      s.m_backBuffer (some {})) s.m_frontBuffer = some {} := by
    rw [Function.update_noteq hs.distinct, Function.update_same]
  obtain ⟨t3, h3⟩ := @InitBuffer_returns hrFront s.m_frontBuffer
    ({ s with m_width := width, m_height := height,
                   heap := Function.update (Function.update s.heap s.m_frontBuffer (some {}))
                     s.m_backBuffer (some {}),
                   events := s.events ++ releaseCalls x ++ releaseCalls y }) _
    hz hs.deviceUnity hs.deviceVLC f1 f2 f3 f4 f5
  have e3 := InitBuffer_ok h3
  obtain ⟨b3', c3, -, hc3, -⟩ := e3.buffers
  have hw : t3.heap t3.m_backBuffer = some {} := by
    rw [hc3, e3.same.back]
    dsimp only
    rw [Function.update_noteq (Ne.symm hs.distinct), Function.update_same]
  have hu3 : t3.m_d3deviceUnity ≠ 0 := by rw [e3.same.deviceUnity]; exact hs.deviceUnity
  have hv3 : t3.m_d3deviceVLC ≠ 0 := by rw [e3.same.deviceVLC]; exact hs.deviceVLC
  obtain ⟨t4, h4⟩ := @InitBuffer_returns hrBack _ _ _ hw hu3 hv3 b1 b2 b3 b4 b5
  refine ⟨t4, ?_⟩
  unfold Update
  simp only [bind, Except.bind]
  rw [r1]
  dsimp only
  rw [r2]
  dsimp only
  rw [h3]
  dsimp only
  exact h4

/-- For every sequence of resizes on an initialised instance in which every Direct3D call
succeeds: each `Update` returns, and after it both buffers were created with the size of
that call, which is the stored size, and hold non-null sampling and write views. -/
theorem Update_allOk_invariant (s : State) (hs : Initialised s) (width height : Nat) :
    ∃ t, Update width height .allOk .allOk s = .ok t ∧ Initialised t ∧
      t.m_width = width ∧ t.m_height = height ∧
      bufferSize t t.m_frontBuffer = some (width, height) ∧
      bufferSize t t.m_backBuffer = some (width, height) ∧
      (∃ f, t.heap t.m_frontBuffer = some f ∧
        f.m_textureShaderInput ≠ 0 ∧ f.m_textureRenderTarget ≠ 0) ∧
      (∃ b, t.heap t.m_backBuffer = some b ∧
        b.m_textureShaderInput ≠ 0 ∧ b.m_textureRenderTarget ≠ 0) := by
  obtain ⟨t, ht⟩ := @Update_returns .allOk .allOk s hs width height
    rfl rfl rfl rfl rfl rfl rfl rfl rfl rfl
  have e := Update_ok ht
  obtain ⟨f, hf, hf2⟩ := e.front
  obtain ⟨b, hb, hb2⟩ := e.back
  obtain ⟨f3, f4, f5⟩ := hf2 hs.distinct rfl
  obtain ⟨b3, b4, b5⟩ := hb2 rfl
  exact ⟨t, ht, Update_initialised hs.distinct hs.ctxVLC ht, e.same.width, e.same.height,
    f5, b5, ⟨f, hf, f3, f4⟩, ⟨b, hb, b3, b4⟩⟩


/-- A completed `InitBuffer` run means the four calls on the shared-handle path succeeded:
a failure of one of them ends in `abort()`. -/
theorem InitBuffer_ok_handle_path {hr : InitResults} {a : Ptr} {s t : State}
    (h : InitBuffer hr a s = .ok t) :
    hr.QueryInterface_IDXGIResource1 = true ∧ hr.CreateSharedHandle = true ∧
    hr.QueryInterface_ID3D11Device1 = true ∧ hr.OpenSharedResource1 = true := by
  cases hb : s.heap a with
  | none => simp [InitBuffer, hb] at h
  | some b =>
    rcases hr with ⟨c1, c2, c3, c4, c5, c6, c7⟩
    cases c2 <;> cases c3 <;> cases c4 <;> cases c5 <;> cases c1 <;> cases c6 <;> cases c7 <;>
      simp [InitBuffer, hb] at h
    all_goals (try (split_ifs at h <;> simp at h; done))
    all_goals exact ⟨rfl, rfl, rfl, rfl⟩

/-- C2, the code at the failing input. On the running instance (decoder device `3`, decoder
context `4`) the first `ReleaseResources` releases the device and the context, nulls
`m_d3deviceVLC` and leaves `m_d3dctxVLC = 4`; the second `ReleaseResources` then calls
`Release()` on the context `4` once more, and `m_d3dctxVLC` is still `4` afterwards: over the
two calls the context was released twice. -/
theorem ReleaseResources_twice_releases_context_again :
    ∃ s1 s2, ReleaseResources startedState = .ok s1 ∧ ReleaseResources s1 = .ok s2 ∧
      startedState.m_d3deviceVLC = 3 ∧ startedState.m_d3dctxVLC = 4 ∧
      s1.events = startedState.events ++
        [.Release 12, .Release 11, .Release 6, .CloseHandle 8, .Delete 1,
         .Release 19, .Release 18, .Release 13, .CloseHandle 15, .Delete 2,
         .Release 3, .Release 4] ∧
      s1.m_frontBuffer = 0 ∧ s1.m_backBuffer = 0 ∧ s1.m_d3deviceVLC = 0 ∧ s1.m_d3dctxVLC = 4 ∧
      s2.events = s1.events ++ [.Release 4] ∧ s2.m_d3dctxVLC = 4 ∧
      (released s2.events).count 4 = 2 := by
  refine ⟨_, _, rfl, rfl, rfl, rfl, ?_, rfl, rfl, rfl, rfl, ?_, rfl, ?_⟩
  · decide
  · decide
  · decide

/-- On an instance that was never initialised `ReleaseResources` does nothing. -/
theorem ReleaseResources_fresh : ReleaseResources State.fresh = .ok State.fresh := rfl

/-- C3, the code at the failing input. On the running instance, `Update(640, 480)` in which
`CreateRenderTargetView` fails for the back buffer returns normally: the stored size is
`640 x 480`, both textures were created at `640 x 480`, and the back buffer's write view
`m_textureRenderTarget` is null. -/
theorem Update_completes_with_null_view :
    ∃ t, Update 640 480 .allOk rtvFails startedState = .ok t ∧
      t.m_width = 640 ∧ t.m_height = 480 ∧
      bufferSize t t.m_frontBuffer = some (640, 480) ∧
      bufferSize t t.m_backBuffer = some (640, 480) ∧
      t.heap t.m_frontBuffer = some ⟨20, 25, 22, 26⟩ ∧
      t.heap t.m_backBuffer = some ⟨27, 32, 29, 0⟩ := by
  refine ⟨_, rfl, rfl, rfl, ?_, ?_, ?_, ?_⟩ <;> decide

/-- C4, the code at the failing input. On the front buffer of the running instance, released
by `ReleaseBuffer` as `Update` does: `InitBuffer` in which `CreateShaderResourceView` fails
returns normally and leaves `m_textureShaderInput` null; `InitBuffer` in which
`CreateRenderTargetView` fails returns normally and leaves `m_textureRenderTarget` null;
`InitBuffer` in which `CreateTexture2D` fails does not reach `abort()` either: it goes on
to call `QueryInterface` through the null `m_textureUnity`. -/
theorem InitBuffer_returns_after_failed_view_creation :
    ∃ r t1 t2, ReleaseBuffer 1 startedState = .ok r ∧
      r.heap 1 = some ⟨0, 0, 0, 0⟩ ∧
      InitBuffer srvFails 1 r = .ok t1 ∧ t1.heap 1 = some ⟨20, 0, 22, 25⟩ ∧
      InitBuffer rtvFails 1 r = .ok t2 ∧ t2.heap 1 = some ⟨20, 25, 22, 0⟩ ∧
      InitBuffer textureFails 1 r = .error .nullDeref := by
  refine ⟨_, _, _, rfl, ?_, rfl, ?_, rfl, ?_, rfl⟩ <;> decide


theorem StartRendering_enter {s : State} (hs : Initialised s) {b : TextureBuffer}
    (hb : s.heap s.m_backBuffer = some b) :
    StartRendering true s =
      .ok (true, { s with events := s.events ++
        [.OMSetRenderTargets s.m_d3dctxVLC b.m_textureRenderTarget,
         .ClearRenderTargetView s.m_d3dctxVLC b.m_textureRenderTarget blackRGBA] }) := by
  simp [StartRendering, hs.ctxVLC, hb]

theorem boundRenderTarget_set_clear (ctx rtv : Ptr) (c : RGBA) (events : List Event) :
    boundRenderTarget ctx
      (events ++ [.OMSetRenderTargets ctx rtv, .ClearRenderTargetView ctx rtv c]) = rtv := by
  simp [boundRenderTarget, List.foldl_append]

theorem clearedColour_set_clear (ctx rtv : Ptr) (c : RGBA) (events : List Event) :
    clearedColour rtv
      (events ++ [.OMSetRenderTargets ctx rtv, .ClearRenderTargetView ctx rtv c]) = some c := by
  simp [clearedColour, List.foldl_append]

/-- With a non-null host device and every Direct3D call succeeding, `CreateResources` returns
an initialised instance whose two buffers have the default size. -/
theorem CreateResources_allOk (s : State) (d3device d3dctx : Ptr) (hd : d3device ≠ 0) :
    ∃ t, CreateResources d3device d3dctx .allOk .allOk .allOk s = .ok t ∧ Initialised t ∧
      t.m_updated = s.m_updated ∧
      bufferSize t t.m_frontBuffer = some (SCREEN_WIDTH, SCREEN_HEIGHT) ∧
      bufferSize t t.m_backBuffer = some (SCREEN_WIDTH, SCREEN_HEIGHT) := by
  have hi : Initialised
      { s with
        m_d3deviceUnity := d3device
        m_d3dctxUnity := d3dctx
        m_frontBuffer := s.nextPtr + 1
        m_backBuffer := s.nextPtr + 2
        m_d3deviceVLC := s.nextPtr + 3
        m_d3dctxVLC := s.nextPtr + 4
        heap := Function.update (Function.update s.heap (s.nextPtr + 1) (some {}))
          (s.nextPtr + 2) (some {})
        nextPtr := s.nextPtr + 5
        events := s.events ++
          [.SetMultithreadProtected (s.nextPtr + 5), .Release (s.nextPtr + 5)] } := by
    refine ⟨?_, ?_, ?_, hd, ?_, ?_⟩
    · show (Function.update (Function.update s.heap (s.nextPtr + 1) (some {}))
        (s.nextPtr + 2) (some {}) (s.nextPtr + 1)).isSome = true
      have hne : s.nextPtr + 1 ≠ s.nextPtr + 2 := by omega
      rw [Function.update_noteq hne, Function.update_same]
      rfl
    · show (Function.update (Function.update s.heap (s.nextPtr + 1) (some {}))
        (s.nextPtr + 2) (some {}) (s.nextPtr + 2)).isSome = true
      rw [Function.update_same]
      rfl
    · show s.nextPtr + 1 ≠ s.nextPtr + 2
      omega
    · show s.nextPtr + 3 ≠ 0
      omega
    · show s.nextPtr + 4 ≠ 0
      omega
  obtain ⟨t, ht, it, -, -, sf, sb, -, -⟩ :=
    Update_allOk_invariant _ hi SCREEN_WIDTH SCREEN_HEIGHT
  refine ⟨t, ?_, it, (Update_ok ht).same.updated, sf, sb⟩
  unfold CreateResources
  simp only [CreateResults.allOk, Bool.not_true, Bool.false_eq_true, if_false, hd, if_true]
  exact ht

/-- C9. From a freshly constructed instance, with a host that hands over non-null pointers
and every Direct3D call succeeding, for every requested size `(w, h)`:
the Initialize event returns and both buffers have size `(100, 100)`;
`UpdateOutput` with `cfg = (w, h)` returns `true`, writes the fixed output description and
leaves both buffers created at `(w, h)`, with non-null views;
`StartRendering(false)` returns `true` and changes nothing;
`StartRendering(true)` returns `true` and its only effect is to bind the back buffer's
write view as render target and to clear that view to `(0, 0, 0, 1)`;
after the following `Swap()` that buffer is the front buffer and `getVideoFrame()` returns
its sampling view with `wasUpdated = true`. -/
theorem decode_one_frame (interfaces : IUnityInterfaces) (h1 : interfaces.d3d ≠ 0)
    (h2 : interfaces.d3device ≠ 0) (h3 : interfaces.d3dctx ≠ 0) (w h : Nat) :
    ∃ s1 s2 s3 s4 back,
      ProcessDeviceEvent .kUnityGfxDeviceEventInitialize interfaces .allOk .allOk .allOk
        State.fresh = .ok s1 ∧
      bufferSize s1 s1.m_frontBuffer = some (100, 100) ∧
      bufferSize s1 s1.m_backBuffer = some (100, 100) ∧
      UpdateOutput ⟨w, h⟩ .allOk .allOk s1 = .ok (true, fixedOutput, s2) ∧
      bufferSize s2 s2.m_frontBuffer = some (w, h) ∧
      bufferSize s2 s2.m_backBuffer = some (w, h) ∧
      s2.heap s2.m_backBuffer = some back ∧
      back.m_textureShaderInput ≠ 0 ∧ back.m_textureRenderTarget ≠ 0 ∧
      StartRendering false s2 = .ok (true, s2) ∧
      StartRendering true s2 = .ok (true, s3) ∧
      s3 = { s2 with events := s2.events ++
        [.OMSetRenderTargets s2.m_d3dctxVLC back.m_textureRenderTarget,
         .ClearRenderTargetView s2.m_d3dctxVLC back.m_textureRenderTarget ⟨0, 0, 0, 1⟩] } ∧
      boundRenderTarget s3.m_d3dctxVLC s3.events = back.m_textureRenderTarget ∧
      clearedColour back.m_textureRenderTarget s3.events = some ⟨0, 0, 0, 1⟩ ∧
      Swap s3 = .ok s4 ∧ s4.m_frontBuffer = s2.m_backBuffer ∧
      s4.heap s4.m_frontBuffer = some back ∧
      getVideoFrame s4 = .ok (back.m_textureShaderInput, true) := by
  obtain ⟨s1, e1, i1, -, f1, b1⟩ :=
    CreateResources_allOk State.fresh interfaces.d3device interfaces.d3dctx h2
  obtain ⟨s2, e2, i2, -, -, f2, b2, -, ⟨back, hb, v1, v2⟩⟩ := Update_allOk_invariant s1 i1 w h
  have e3 := StartRendering_enter i2 hb
  have i3 : Initialised { s2 with events := s2.events ++
        [.OMSetRenderTargets s2.m_d3dctxVLC back.m_textureRenderTarget,
         .ClearRenderTargetView s2.m_d3dctxVLC back.m_textureRenderTarget blackRGBA] } :=
    ⟨i2.front, i2.back, i2.distinct, i2.deviceUnity, i2.deviceVLC, i2.ctxVLC⟩
  obtain ⟨s4, e4, -, f4, -, u4, h4, -⟩ := Swap_ok i3
  dsimp only at f4 h4
  have hf : s4.heap s4.m_frontBuffer = some back := by rw [h4, f4]; exact hb
  refine ⟨s1, s2, _, s4, back, ?_, f1, b1, ?_, f2, b2, hb, v1, v2, rfl, e3, rfl,
    boundRenderTarget_set_clear _ _ _ _, clearedColour_set_clear _ _ _ _, e4, f4, hf, ?_⟩
  · simp only [ProcessDeviceEvent, h1, h2, h3, if_false]
    exact e1
  · simp [UpdateOutput, e2, bind, Except.bind, pure, Except.pure, fixedOutput]
  · simp [getVideoFrame, hf, u4]

/-- C9, at the size `1920 x 1080` with the host pointers `1000, 1001, 1002`. -/
theorem decode_one_frame_witness :
    ∃ s1 s2 s4,
      ProcessDeviceEvent .kUnityGfxDeviceEventInitialize hostInterfaces .allOk .allOk .allOk
        State.fresh = .ok s1 ∧
      UpdateOutput ⟨1920, 1080⟩ .allOk .allOk s1 = .ok (true, fixedOutput, s2) ∧
      bufferSize s2 s2.m_backBuffer = some (1920, 1080) ∧
      s4.m_frontBuffer = s2.m_backBuffer ∧
      ∃ view, getVideoFrame s4 = .ok (view, true) := by
  obtain ⟨s1, s2, s3, s4, back, a1, -, -, a2, -, a3, -, -, -, -, -, -, -, -, -, a4, -, a5⟩ :=
    decode_one_frame hostInterfaces (by decide) (by decide) (by decide) 1920 1080
  exact ⟨s1, s2, s4, a1, a2, a3, a4, _, a5⟩


theorem plainSteps_append (xs ys : List Step) :
    plainSteps (xs ++ ys) = (plainSteps xs && plainSteps ys) := by
  simp [plainSteps, List.all_append]

theorem lockDisciplined_plain {guard : Member → Option Lock} {held : List Lock}
    (hc : ∀ m l, guard m = some l → l ∈ held) :
    ∀ (xs ys : List Step), plainSteps xs = true →
      lockDisciplined guard held (xs ++ ys) = lockDisciplined guard held ys
  | [], _, _ => rfl
  | .Enter l :: xs, _, h => by simp [plainSteps] at h
  | .Leave l :: xs, _, h => by simp [plainSteps] at h
  | .Read m :: xs, ys, h => by
    have hx : plainSteps xs = true := by simpa [plainSteps] using h
    have ih := lockDisciplined_plain hc xs ys hx
    simp only [List.cons_append, lockDisciplined, ih]
    cases hg : guard m with
    | none => simpa using ih
    | some l => simpa [hc m l hg] using ih
  | .Write m :: xs, ys, h => by
    have hx : plainSteps xs = true := by simpa [plainSteps] using h
    have ih := lockDisciplined_plain hc xs ys hx
    simp only [List.cons_append, lockDisciplined, ih]
    cases hg : guard m with
    | none => simpa using ih
    | some l => simpa [hc m l hg] using ih

theorem plainSteps_releaseMemberSteps (m : Member) (p : Ptr) :
    plainSteps (releaseMemberSteps m p) = true := by
  unfold releaseMemberSteps
  split_ifs <;> rfl

theorem plainSteps_ReleaseBuffer_steps (b : TextureBuffer) :
    plainSteps (ReleaseBuffer_steps b) = true := by
  simp [ReleaseBuffer_steps, plainSteps_append, plainSteps_releaseMemberSteps]

theorem plainSteps_InitBuffer_steps (hr : InitResults) :
    plainSteps (InitBuffer_steps hr) = true := by
  rcases hr with ⟨c1, c2, c3, c4, c5, c6, c7⟩
  cases c1 <;> cases c2 <;> cases c3 <;> cases c4 <;> cases c5 <;> cases c6 <;> cases c7 <;> rfl

theorem outputGuard_covered (m : Member) (l : Lock) (h : outputGuard m = some l) :
    l ∈ [Lock.m_outputLock] := by
  cases m <;> simp [outputGuard] at h <;> simp [← h]

theorem Update_steps_disciplined (front back : TextureBuffer) (hrFront hrBack : InitResults) :
    lockDisciplined outputGuard [] (Update_steps front back hrFront hrBack) = true := by
  have hc := outputGuard_covered
  have p1 : plainSteps ([.Write .m_width, .Write .m_height, .Read .m_frontBuffer] ++
      ReleaseBuffer_steps front ++ [.Read .m_backBuffer] ++ ReleaseBuffer_steps back ++
      [.Read .m_frontBuffer] ++ InitBuffer_steps hrFront) = true := by
    simp only [plainSteps_append, plainSteps_ReleaseBuffer_steps, plainSteps_InitBuffer_steps,
      Bool.and_true]
    rfl
  have p2 : plainSteps ([.Read .m_backBuffer] ++ InitBuffer_steps hrBack) = true := by
    simp only [plainSteps_append, plainSteps_InitBuffer_steps, Bool.and_true]
    rfl
  have shape : Update_steps front back hrFront hrBack =
      .Enter .m_outputLock ::
        (([.Write .m_width, .Write .m_height, .Read .m_frontBuffer] ++
          ReleaseBuffer_steps front ++ [.Read .m_backBuffer] ++ ReleaseBuffer_steps back ++
          [.Read .m_frontBuffer] ++ InitBuffer_steps hrFront) ++
        (if !hrFront.completes then []
         else ([.Read .m_backBuffer] ++ InitBuffer_steps hrBack) ++
           (if !hrBack.completes then [] else [.Leave .m_outputLock]))) := by
    simp [Update_steps]
  rw [shape]
  show lockDisciplined outputGuard [Lock.m_outputLock] (_ ++ _) = true
  rw [lockDisciplined_plain hc _ _ p1]
  split_ifs
  · rfl
  · rw [lockDisciplined_plain hc _ _ p2]; rfl
  · rw [lockDisciplined_plain hc _ _ p2]; rfl


/-- `Update` is the statements of `Update_released` followed by the two `InitBuffer` calls. -/
theorem Update_eq_released_then_init (width height : Nat) (hrFront hrBack : InitResults)
    (s : State) :
    Update width height hrFront hrBack s =
      (Update_released width height s >>= fun r =>
        InitBuffer hrFront r.m_frontBuffer r >>= fun r => InitBuffer hrBack r.m_backBuffer r) := by
  simp only [Update, Update_released, bind_assoc]

/-- Where the code keeps the lock discipline the specification states: `Swap` makes all its
accesses to the front/back pointers and the updated flag while it holds the output lock,
`Resize` makes all its accesses to the callback, its argument and the stored size while it
holds the size lock, and `Update` makes all its accesses to the front/back pointers and
the buffers' views while it holds the output lock. -/
theorem lock_discipline_kept (front back : TextureBuffer) (hrFront hrBack : InitResults)
    (report_size_change : Ptr) :
    lockDisciplined specGuard [] Swap_steps = true ∧
    lockDisciplined specGuard [] (Resize_steps report_size_change) = true ∧
    lockDisciplined outputGuard [] (Update_steps front back hrFront hrBack) = true := by
  refine ⟨by decide, ?_, Update_steps_disciplined front back hrFront hrBack⟩
  unfold Resize_steps
  split_ifs <;> decide

/-- C10, the code at the failing input. `getVideoFrame` leaves the output lock after it has
read `m_updated`; its reads of `m_frontBuffer` and of that buffer's sampling view come after
`LeaveCriticalSection`, with no lock held. So the read can fall inside the critical section
of an `Update` on another thread: on the running instance, in the state `Update(640, 480)`
is in after its two `ReleaseBuffer` calls and before its `InitBuffer` calls, the front
buffer is released and the read returns the null view.
The other departures from the stated discipline: `StartRendering(true)` and `SelectPlane(0)`
read `m_backBuffer` and its write view with no lock held, `Update` writes `m_width` and
`m_height` while it holds the output lock and not the size lock, and `ReleaseResources`
reads and writes the buffer pointers with no lock held. -/
theorem lock_discipline_of_the_spec_fails :
    getVideoFrame_steps.drop 3 = [.Read .m_frontBuffer, .Read .m_textureShaderInput] ∧
    lockDisciplined specGuard [] (getVideoFrame_steps.take 3) = true ∧
    lockDisciplined specGuard [] getVideoFrame_steps = false ∧
    (∃ r, Update_released 640 480 startedState = .ok r ∧
      r.heap r.m_frontBuffer = some ⟨0, 0, 0, 0⟩ ∧
      getVideoFrame r = .ok (0, false)) ∧
    lockDisciplined specGuard [] (StartRendering_steps true) = false ∧
    lockDisciplined specGuard [] (SelectPlane_steps 0) = false ∧
    lockDisciplined specGuard [] (Update_steps {} {} .allOk .allOk) = false ∧
    lockDisciplined specGuard [] (ReleaseResources_steps 1 2 3 4 {} {}) = false := by
  refine ⟨by decide, by decide, by decide, ⟨_, rfl, ?_, rfl⟩, by decide, by decide,
    by decide, by decide⟩
  decide

end RenderAPI_D3D11
